import Mathlib

/-! Liquidity-provider return analytics of `src/contexts/User.js`.

A shallow embedding of the return-decomposition and day-bucketing code of
`src/src/contexts/User.js` (`useReturnsPerPairHistory`, `useUserLiquidityHistory`,
`getReturns`, `useUserLiquidityChart`).

Numbers.  Two models of JavaScript numbers are used.

The control flow of the loops (which snapshot is selected, what is accumulated and emitted,
which timestamps are produced, what throws) is stated over `JsNum`: `fin q` is a finite value,
held exactly as a rational, and `nonFinite` stands for `NaN` and `±Infinity`, which the code
produces by dividing by zero or taking the square root of a negative number.  `nonFinite` is
absorbing.  `Math.sqrt` is there a parameter `sqrt : ℚ → ℚ` of the definitions that use it;
concrete evaluations instantiate it with `sqrtQ`, which is exact on squares of rationals.  No
statement over `JsNum` below depends on rounding or on telling `NaN` from `±Infinity`.

The arithmetic relations between the values of one bucket and between the weights of
`getReturns` are stated over `Double`, the numbers of the code itself: IEEE 754 binary64 with
rounding to nearest, ties to even, signed zeros, gradual underflow, overflow to `±Infinity`,
and `NaN`.  The computations are written once over an arithmetic `Arith F` and read at
`Double.arith`; read at `JsNum.arith` they are the definitions over `JsNum`
(`bucketValues_toIn`, `intervalStep_eq_In`).

Values that arrive as decimal strings from the indexing service (`parseFloat` of a well-formed
numeral) are finite rationals.  Timestamps and day indices are natural numbers.

A thrown `TypeError` is modelled by `Except.error`.
-/

namespace Mooniswap

/-! ## JavaScript numbers -/

/-- A JavaScript number: a finite value or a non-finite one (`NaN`, `±Infinity`). -/
inductive JsNum where
  | fin (q : ℚ)
  | nonFinite
  deriving DecidableEq

namespace JsNum

/-- JavaScript `a + b`. -/
def add : JsNum → JsNum → JsNum
  | fin x, fin y => fin (x + y)
  | _, _ => nonFinite

/-- JavaScript `a - b`. -/
def sub : JsNum → JsNum → JsNum
  | fin x, fin y => fin (x - y)
  | _, _ => nonFinite

/-- JavaScript `a * b`. -/
def mul : JsNum → JsNum → JsNum
  | fin x, fin y => fin (x * y)
  | _, _ => nonFinite

/-- JavaScript `a / b`: division by zero is `NaN` or `±Infinity`. -/
def div : JsNum → JsNum → JsNum
  | fin x, fin y => if y = 0 then nonFinite else fin (x / y)
  | _, _ => nonFinite

/-- JavaScript `Math.sqrt(a)` over the square-root function `sqrt` of the non-negative
rationals: `NaN` on a negative argument. -/
def sqrtWith (sqrt : ℚ → ℚ) : JsNum → JsNum
  | fin x => if x < 0 then nonFinite else fin (sqrt x)
  | nonFinite => nonFinite

/-- JavaScript truthiness of a number in `x ? a : b`: `0` is falsy.  (A non-finite value is
taken as truthy, as `±Infinity` is; `NaN`, which `nonFinite` also stands for, is falsy in
JavaScript.  No statement below evaluates `truthy` at `nonFinite`.) -/
def truthy : JsNum → Bool
  | fin x => decide (x ≠ 0)
  | nonFinite => true

instance : Add JsNum := ⟨add⟩
instance : Sub JsNum := ⟨sub⟩
instance : Mul JsNum := ⟨mul⟩
instance : Div JsNum := ⟨div⟩

end JsNum

open JsNum (fin nonFinite)

/-- A square root on the rationals that is exact on squares of rationals: the integer square
root of `num * den` over `den`. -/
def sqrtQ (x : ℚ) : ℚ := (Nat.sqrt (x.num.toNat * x.den) : ℚ) / (x.den : ℚ)

/-! ## Data model -/

/-- The `pair` object of a snapshot: `pair.id`, `pair.token0.id`, `pair.token1.id`. -/
structure PairRef where
  id : String
  token0Id : String
  token1Id : String
  deriving DecidableEq

/-- A liquidity position snapshot as returned by the `USER_HISTORY` queries. -/
structure Snapshot where
  timestamp : Nat
  pair : PairRef
  liquidityTokenBalance : ℚ
  liquidityTokenTotalSupply : ℚ
  reserve0 : ℚ
  reserve1 : ℚ
  reserveUSD : ℚ
  token0PriceUSD : ℚ
  token1PriceUSD : ℚ
  deriving DecidableEq

/-- One element of the result of `getShareValueOverTime(pairAddress, dayTimestamps)`. -/
structure ShareValue where
  timestamp : Nat
  sharePriceUsd : ℚ
  totalSupply : ℚ
  reserve0 : ℚ
  reserve1 : ℚ
  reserveUSD : ℚ
  ethPrice : ℚ
  token0DerivedETH : ℚ
  token1DerivedETH : ℚ
  deriving DecidableEq

/-- The live pair state (`usePairData(pairAddress)`, and the `pair` argument of `getReturns`).
`sharePriceUsd` is `none` when the object has no such property. -/
structure PairData where
  id : String
  totalSupply : ℚ
  reserve0 : ℚ
  reserve1 : ℚ
  reserveUSD : ℚ
  token0DerivedETH : ℚ
  token1DerivedETH : ℚ
  sharePriceUsd : Option ℚ
  deriving DecidableEq

/-- The market view of a bucket's end: the fields the loop reads from a share value or from
the live pair state once `token0PriceUSD` and `token1PriceUSD` have been written on it. -/
structure MarketState where
  totalSupply : ℚ
  reserve0 : ℚ
  reserve1 : ℚ
  reserveUSD : ℚ
  token0PriceUSD : ℚ
  token1PriceUSD : ℚ
  sharePriceUsd : JsNum
  deriving DecidableEq

/-- The object bound to `positionT1`: the bucket's market data, or the snapshot chosen as the
bucket's position change. -/
inductive PositionT1 where
  | market (m : MarketState)
  | change (s : Snapshot)
  deriving DecidableEq

namespace PositionT1

/-- `positionT1.totalSupply`; on a snapshot it is set from `liquidityTokenTotalSupply`. -/
def totalSupply : PositionT1 → ℚ
  | market m => m.totalSupply
  | change s => s.liquidityTokenTotalSupply

/-- `positionT1.reserve0`. -/
def reserve0 : PositionT1 → ℚ
  | market m => m.reserve0
  | change s => s.reserve0

/-- `positionT1.reserve1`. -/
def reserve1 : PositionT1 → ℚ
  | market m => m.reserve1
  | change s => s.reserve1

/-- `positionT1.reserveUSD`. -/
def reserveUSD : PositionT1 → ℚ
  | market m => m.reserveUSD
  | change s => s.reserveUSD

/-- `positionT1.token0PriceUSD`. -/
def token0PriceUSD : PositionT1 → ℚ
  | market m => m.token0PriceUSD
  | change s => s.token0PriceUSD

/-- `positionT1.token1PriceUSD`. -/
def token1PriceUSD : PositionT1 → ℚ
  | market m => m.token1PriceUSD
  | change s => s.token1PriceUSD

/-- `parseFloat(positionT1.sharePriceUsd)`: a snapshot has no such property (`NaN`). -/
def sharePriceUsd : PositionT1 → JsNum
  | market m => m.sharePriceUsd
  | change _ => nonFinite

end PositionT1

/-- The cumulative `returns` record of `useReturnsPerPairHistory`. -/
structure Returns where
  lastUpdated : Nat
  liquidityTokenBalance : ℚ
  totalSupply : ℚ
  reserve0 : ℚ
  reserve1 : ℚ
  reserveUSD : ℚ
  token0PriceUSD : ℚ
  token1PriceUSD : ℚ
  assetReturn : JsNum
  mooniswapReturn : JsNum
  netReturn : JsNum
  assetChange : JsNum
  mooniswapChange : JsNum
  netChange : JsNum
  deriving DecidableEq

/-- One element pushed to `formattedHistory` by `useReturnsPerPairHistory`. -/
structure BucketResult where
  date : Nat
  usdValue : JsNum
  netReturn : JsNum
  assetReturn : JsNum
  mooniswapReturn : JsNum
  netChange : JsNum
  assetChange : JsNum
  mooniswapChange : JsNum
  deriving DecidableEq

/-! ## `useReturnsPerPairHistory`: the bucket loop -/

/-- The initial `returns` record (lines 256-271), from `pairSnapshots[0]`. -/
def initReturns (s : Snapshot) : Returns :=
  { lastUpdated := s.timestamp
    liquidityTokenBalance := s.liquidityTokenBalance
    totalSupply := s.liquidityTokenTotalSupply
    reserve0 := s.reserve0
    reserve1 := s.reserve1
    reserveUSD := s.reserveUSD
    token0PriceUSD := s.token0PriceUSD
    token1PriceUSD := s.token1PriceUSD
    assetReturn := fin 0
    mooniswapReturn := fin 0
    netReturn := fin 0
    assetChange := fin 0
    mooniswapChange := fin 0
    netChange := fin 0 }

/-- The constants computed for one bucket (lines 313-354). -/
structure BucketValues where
  t0Ownership : JsNum
  t1Ownership : JsNum
  token0_amount_t0 : JsNum
  token1_amount_t0 : JsNum
  token0_amount_t1 : JsNum
  token1_amount_t1 : JsNum
  sqrK_t0 : JsNum
  token0_amount_no_fees : JsNum
  token1_amount_no_fees : JsNum
  no_fees_usd : JsNum
  difference_fees_token0 : JsNum
  difference_fees_token1 : JsNum
  difference_fees_usd : JsNum
  assetValueT0 : JsNum
  assetValueT1 : JsNum
  imp_loss_usd : JsNum
  mooniswap_return : JsNum
  assetReturn : JsNum
  netValueT0 : JsNum
  netValueT1 : JsNum
  deriving DecidableEq

/-- Lines 313-354: ownership at both ends of the window, token amounts, the fee-free
counterfactual, and the asset, pool and net values. -/
def bucketValues (sqrt : ℚ → ℚ) (positionT0 : Returns) (positionT1 : PositionT1) :
    BucketValues :=
  let t0Ownership := fin positionT0.liquidityTokenBalance / fin positionT0.totalSupply
  let t1Ownership := fin positionT0.liquidityTokenBalance / fin positionT1.totalSupply
  let token0_amount_t0 := t0Ownership * fin positionT0.reserve0
  let token1_amount_t0 := t0Ownership * fin positionT0.reserve1
  let token0_amount_t1 := t1Ownership * fin positionT1.reserve0
  let token1_amount_t1 := t1Ownership * fin positionT1.reserve1
  let sqrK_t0 := JsNum.sqrtWith sqrt (token0_amount_t0 * token1_amount_t0)
  let token0_amount_no_fees := sqrK_t0 * JsNum.sqrtWith sqrt (fin positionT1.token1PriceUSD)
  let token1_amount_no_fees := sqrK_t0 / JsNum.sqrtWith sqrt (fin positionT1.token1PriceUSD)
  let no_fees_usd :=
    token0_amount_no_fees * fin positionT1.token0PriceUSD +
      token1_amount_no_fees * fin positionT1.token1PriceUSD
  let difference_fees_token0 := token0_amount_t1 - token0_amount_no_fees
  let difference_fees_token1 := token1_amount_t1 - token1_amount_no_fees
  let difference_fees_usd :=
    difference_fees_token0 * fin positionT1.token0PriceUSD +
      difference_fees_token1 * fin positionT1.token1PriceUSD
  let assetValueT0 :=
    token0_amount_t0 * fin positionT0.token0PriceUSD +
      token1_amount_t0 * fin positionT0.token1PriceUSD
  let assetValueT1 :=
    token0_amount_t0 * fin positionT1.token0PriceUSD +
      token1_amount_t0 * fin positionT1.token1PriceUSD
  let imp_loss_usd := no_fees_usd - assetValueT1
  let mooniswap_return := difference_fees_usd + imp_loss_usd
  let assetReturn := assetValueT1 - assetValueT0
  let netValueT0 := t0Ownership * fin positionT0.reserveUSD
  let netValueT1 := t1Ownership * fin positionT1.reserveUSD
  { t0Ownership := t0Ownership
    t1Ownership := t1Ownership
    token0_amount_t0 := token0_amount_t0
    token1_amount_t0 := token1_amount_t0
    token0_amount_t1 := token0_amount_t1
    token1_amount_t1 := token1_amount_t1
    sqrK_t0 := sqrK_t0
    token0_amount_no_fees := token0_amount_no_fees
    token1_amount_no_fees := token1_amount_no_fees
    no_fees_usd := no_fees_usd
    difference_fees_token0 := difference_fees_token0
    difference_fees_token1 := difference_fees_token1
    difference_fees_usd := difference_fees_usd
    assetValueT0 := assetValueT0
    assetValueT1 := assetValueT1
    imp_loss_usd := imp_loss_usd
    mooniswap_return := mooniswap_return
    assetReturn := assetReturn
    netValueT0 := netValueT0
    netValueT1 := netValueT1 }

/-- Lines 296-298: the snapshots of the pair strictly inside the day. -/
def positionChanges (pairSnapshots : List Snapshot) (dayTimestamp : Nat) : List Snapshot :=
  pairSnapshots.filter fun snapshot =>
    decide (snapshot.timestamp < dayTimestamp + 86400) && decide (snapshot.timestamp > dayTimestamp)

/-- The variables written by the loop of lines 300-311. -/
structure Selection where
  lastUpdated : Nat
  positionT1 : PositionT1
  needsUpdate : Bool
  deriving DecidableEq

/-- One iteration of the loop of lines 302-311. -/
def selectStep (st : Selection) (positionChange : Snapshot) : Selection :=
  if st.lastUpdated < positionChange.timestamp then
    { lastUpdated := positionChange.timestamp
      positionT1 := PositionT1.change positionChange
      needsUpdate := true }
  else st

/-- Lines 300-311: find the latest change of the day. -/
def selectLatest (lastUpdated : Nat) (positionT1 : PositionT1) (changes : List Snapshot) :
    Selection :=
  changes.foldl selectStep
    { lastUpdated := lastUpdated, positionT1 := positionT1, needsUpdate := false }

/-- Lines 356-363: the update of `returns` when the position changed in the bucket. -/
def accumulate (returns : Returns) (v : BucketValues) : Returns :=
  { returns with
    netReturn := returns.netReturn + v.netValueT1 - v.netValueT0
    assetReturn := returns.assetReturn + v.assetReturn
    mooniswapReturn := returns.mooniswapReturn + v.mooniswap_return
    netChange := returns.netChange + ((v.netValueT1 - v.netValueT0) / v.netValueT0) * fin 100
    assetChange := returns.assetChange + (v.assetReturn / v.assetValueT0) * fin 100 }

/-- Lines 365-386: the element pushed to `formattedHistory`. -/
def emit (returns : Returns) (positionT1 : PositionT1) (v : BucketValues) (dayTimestamp : Nat) :
    BucketResult :=
  let localNetReturn := returns.netReturn + v.netValueT1 - v.netValueT0
  let localAssetReturn := returns.assetReturn + v.assetReturn
  let localUnsiwapReturn := returns.mooniswapReturn + v.mooniswap_return
  let localAssetChange := (v.assetReturn / v.assetValueT0) * fin 100
  let localNetChange := ((v.netValueT1 - v.netValueT0) / v.netValueT0) * fin 100
  let localMooniswapChange := localNetChange - localAssetChange
  let currentLiquidityValue := fin returns.liquidityTokenBalance * positionT1.sharePriceUsd
  { date := dayTimestamp
    usdValue := currentLiquidityValue
    netReturn := localNetReturn
    assetReturn := localAssetReturn
    mooniswapReturn := localUnsiwapReturn
    netChange := localNetChange
    assetChange := localAssetChange
    mooniswapChange := localMooniswapChange }

/-- The body of the loop over `dayTimestamps` from line 295 on, for the bucket starting at
`dayTimestamp` whose market data is `market`: the new `returns` and the emitted element. -/
def processBucket (sqrt : ℚ → ℚ) (pairSnapshots : List Snapshot) (returns : Returns)
    (dayTimestamp : Nat) (market : MarketState) : Returns × BucketResult :=
  let sel := selectLatest returns.lastUpdated (PositionT1.market market)
    (positionChanges pairSnapshots dayTimestamp)
  let returns1 := { returns with lastUpdated := sel.lastUpdated }
  let v := bucketValues sqrt returns1 sel.positionT1
  let returns2 := if sel.needsUpdate then accumulate returns1 v else returns1
  (returns2, emit returns2 sel.positionT1 v dayTimestamp)

/-- Line 233 and lines 239-242: the day index the loop starts from.  `firstTimestamp` is
`parseInt(sortedPositions[0].timestamp)`; the test compares it with the day index. -/
def startDayIndex (startDateTimestamp firstTimestamp : Nat) : Nat :=
  let dayIndex := startDateTimestamp / 86400
  if firstTimestamp > dayIndex then firstTimestamp / 86400 else dayIndex

/-- Lines 244-249: `while (dayIndex <= currentDayIndex)`, pushing `dayIndex * 86400`. -/
def dayTimestampsFrom (currentDayIndex dayIndex : Nat) (dayTimestamps : List Nat) : List Nat :=
  if dayIndex ≤ currentDayIndex then
    dayTimestampsFrom currentDayIndex (dayIndex + 1) (dayTimestamps ++ [dayIndex * 86400])
  else dayTimestamps
termination_by currentDayIndex + 1 - dayIndex

/-- The `dayTimestamps` array of `useReturnsPerPairHistory` for the start day index `dayIndex`
and the current time `now` (`currentDayIndex = parseInt(now / 86400)`). -/
def dayTimestamps (dayIndex now : Nat) : List Nat :=
  dayTimestampsFrom (now / 86400) dayIndex []

/-- Lines 236-238 and 465-467: `history.sort` by ascending timestamp, which sorts the array
in place.  The comparator never returns `0`, so the order among equal timestamps is left to
the engine; here it is the order of the input. -/
def sortedPositions (history : List Snapshot) : List Snapshot :=
  history.insertionSort fun a b => a.timestamp ≤ b.timestamp

/-- Lines 191-196: the snapshots of the position's pair. -/
def pairSnapshotsOf (history : List Snapshot) (pairId : String) : List Snapshot :=
  history.filter fun currentPosition => decide (currentPosition.pair.id = pairId)

/-- Lines 280 and 292-293: a share value with its USD prices written on it. -/
def marketOfShareValue (shareValue : ShareValue) : MarketState :=
  { totalSupply := shareValue.totalSupply
    reserve0 := shareValue.reserve0
    reserve1 := shareValue.reserve1
    reserveUSD := shareValue.reserveUSD
    token0PriceUSD := shareValue.ethPrice * shareValue.token0DerivedETH
    token1PriceUSD := shareValue.ethPrice * shareValue.token1DerivedETH
    sharePriceUsd := fin shareValue.sharePriceUsd }

/-- Lines 283-293: the live pair state used for today's bucket. -/
def marketOfCurrent (currentPairData : PairData) (currentETHPrice : ℚ) : MarketState :=
  { totalSupply := currentPairData.totalSupply
    reserve0 := currentPairData.reserve0
    reserve1 := currentPairData.reserve1
    reserveUSD := currentPairData.reserveUSD
    token0PriceUSD := currentETHPrice * currentPairData.token0DerivedETH
    token1PriceUSD := currentETHPrice * currentPairData.token1DerivedETH
    sharePriceUsd :=
      match currentPairData.sharePriceUsd with
      | some x => fin x
      | none => nonFinite }

/-- Lines 273-387: the loop over `dayTimestamps`, from position `index` on.  `length` is
`dayTimestamps.length`; a missing `shareValues[index]` is a `TypeError`. -/
def bucketLoop (sqrt : ℚ → ℚ) (pairSnapshots : List Snapshot) (shareValues : List ShareValue)
    (currentPairData : PairData) (currentETHPrice : ℚ) (length : Nat) :
    Nat → List Nat → Returns → List BucketResult → Except String (Returns × List BucketResult)
  | _, [], returns, formattedHistory => .ok (returns, formattedHistory)
  | index, dayTimestamp :: rest, returns, formattedHistory =>
    match shareValues.get? index with
    | none => .error "TypeError: shareValue is undefined"
    | some shareValue =>
      let market :=
        if index = length - 1 then marketOfCurrent currentPairData currentETHPrice
        else marketOfShareValue shareValue
      let step := processBucket sqrt pairSnapshots returns dayTimestamp market
      bucketLoop sqrt pairSnapshots shareValues currentPairData currentETHPrice length
        (index + 1) rest step.1 (formattedHistory ++ [step.2])

namespace useReturnsPerPairHistory

/-- The `fetchData` of `useReturnsPerPairHistory` (lines 232-390): the value passed to
`setFormattedHistory`, or the `TypeError` thrown.  `getShareValueOverTime` is the helper
applied to the pair address; `now` is `dayjs.utc().unix()`. -/
def fetchData (sqrt : ℚ → ℚ) (getShareValueOverTime : List Nat → List ShareValue)
    (startDateTimestamp now : Nat) (history pairSnapshots : List Snapshot)
    (currentPairData : PairData) (currentETHPrice : ℚ) : Except String (List BucketResult) :=
  match sortedPositions history with
  | [] => .error "TypeError: sortedPositions[0] is undefined"
  | first :: _ =>
    let days := dayTimestamps (startDayIndex startDateTimestamp first.timestamp) now
    let shareValues := getShareValueOverTime days
    match pairSnapshots with
    | [] => .error "TypeError: pairSnapshots[0] is undefined"
    | snapshot0 :: _ =>
      (bucketLoop sqrt pairSnapshots shareValues currentPairData currentETHPrice days.length
        0 days (initReturns snapshot0) []).map Prod.snd

end useReturnsPerPairHistory

/-! ## `useUserLiquidityHistory` -/

/-- A value of the `ownershipPerPair` map. -/
structure Ownership where
  lpTokenBalance : ℚ
  timestamp : Nat
  deriving DecidableEq

/-- A record of `pairDayDatas` (the result of `PAIR_DAY_DATA_BULK`). -/
structure PairDayData where
  pairAddress : String
  date : Nat
  totalSupply : ℚ
  reserveUSD : ℚ
  deriving DecidableEq

/-- The `ownershipPerPair` object: its entries in insertion order (the order of
`Object.keys`). -/
abbrev OwnershipMap := List (String × Ownership)

/-- The lookup `ownershipPerPair[key]`: `none` is `undefined`. -/
def OwnershipMap.get (m : OwnershipMap) (key : String) : Option Ownership :=
  (m.find? fun e => decide (e.1 = key)).map Prod.snd

/-- The assignment `ownershipPerPair[key] = value`. -/
def OwnershipMap.set (m : OwnershipMap) (key : String) (value : Ownership) : OwnershipMap :=
  if m.any fun e => decide (e.1 = key) then
    m.map fun e => if e.1 = key then (key, value) else e
  else m ++ [(key, value)]

/-- Lines 504-518: the update of `ownershipPerPair` for one relevant position. -/
def updateOwnership (ownershipPerPair : OwnershipMap) (position : Snapshot) : OwnershipMap :=
  let entry : Ownership :=
    { lpTokenBalance := position.liquidityTokenBalance, timestamp := position.timestamp }
  let m1 :=
    match ownershipPerPair.get position.pair.id with
    | none => ownershipPerPair.set position.pair.id entry
    | some _ => ownershipPerPair
  match m1.get position.pair.id with
  | some current =>
    if current.timestamp < position.timestamp then m1.set position.pair.id entry else m1
  | none => m1

/-- Lines 500-519: the ownership map after the day's relevant positions. -/
def ownershipAfterDay (ownershipPerPair : OwnershipMap) (history : List Snapshot)
    (dayTimestamp : Nat) : OwnershipMap :=
  (positionChanges history dayTimestamp).foldl updateOwnership ownershipPerPair

/-- Lines 523-534: the most recent day data of a pair; `none` is `undefined`, returned when
the pair has no record. -/
def mostRecentDayData (pairDayDatas : List PairDayData) (dayTimestamp : Nat)
    (pairAddress : String) : Option PairDayData :=
  let dayDatasForThisPair := pairDayDatas.filter fun dayData =>
    decide (dayData.pairAddress = pairAddress)
  match dayDatasForThisPair with
  | [] => none
  | first :: _ =>
    some (dayDatasForThisPair.foldl
      (fun mostRecent dayData =>
        if dayData.date < dayTimestamp ∧ dayData.date > mostRecent.date then dayData
        else mostRecent)
      first)

/-- Lines 521-535: `relavantDayDatas`. -/
def relavantDayDatas (ownershipPerPair : OwnershipMap) (pairDayDatas : List PairDayData)
    (dayTimestamp : Nat) : List (Option PairDayData) :=
  (ownershipPerPair.map Prod.fst).map (mostRecentDayData pairDayDatas dayTimestamp)

/-- The callback of the `reduce` of lines 538-545: reading `dayData.pairAddress` of
`undefined` is a `TypeError`. -/
def dailyUSDStep (ownershipPerPair : OwnershipMap) (totalUSD : JsNum)
    (dayData : Option PairDayData) : Except String JsNum :=
  match dayData with
  | none => .error "TypeError: dayData is undefined"
  | some d =>
    match ownershipPerPair.get d.pairAddress with
    | some o => .ok (totalUSD + (fin o.lpTokenBalance / fin d.totalSupply) * fin d.reserveUSD)
    | none => .ok (totalUSD + fin 0)

/-- Lines 538-545: `dailyUSD`. -/
def dailyUSD (ownershipPerPair : OwnershipMap) (datas : List (Option PairDayData)) :
    Except String JsNum :=
  datas.foldlM (dailyUSDStep ownershipPerPair) (fin 0)

/-- Lines 521-545 for one day: the day's `valueUSD`, or the `TypeError` thrown. -/
def dayValueUSD (ownershipPerPair : OwnershipMap) (pairDayDatas : List PairDayData)
    (dayTimestamp : Nat) : Except String JsNum :=
  dailyUSD ownershipPerPair (relavantDayDatas ownershipPerPair pairDayDatas dayTimestamp)

/-- An element of the `formattedHistory` of `useUserLiquidityHistory`. -/
structure LiquidityDay where
  date : Nat
  valueUSD : JsNum
  deriving DecidableEq

/-- Lines 473-478: `while (dayIndex < currentDayIndex)`. -/
def pastDayTimestampsFrom (currentDayIndex dayIndex : Nat) (dayTimestamps : List Nat) :
    List Nat :=
  if dayIndex < currentDayIndex then
    pastDayTimestampsFrom currentDayIndex (dayIndex + 1) (dayTimestamps ++ [dayIndex * 86400])
  else dayTimestamps
termination_by currentDayIndex - dayIndex

/-- Lines 495-551: the loop over the days. -/
def liquidityLoop (history : List Snapshot) (pairDayDatas : List PairDayData) :
    List Nat → OwnershipMap → List LiquidityDay → Except String (List LiquidityDay)
  | [], _, formattedHistory => .ok formattedHistory
  | dayTimestamp :: rest, ownershipPerPair, formattedHistory =>
    let ownership := ownershipAfterDay ownershipPerPair history dayTimestamp
    match dayValueUSD ownership pairDayDatas dayTimestamp with
    | .error e => .error e
    | .ok value =>
      liquidityLoop history pairDayDatas rest ownership
        (formattedHistory ++ [{ date := dayTimestamp, valueUSD := value }])

namespace useUserLiquidityHistory

/-- The `fetchData` of the third effect of `useUserLiquidityHistory` (lines 461-554): the value
passed to `setFormattedHistory`, or the `TypeError` thrown.  `queryPairDayDatas` is the
`PAIR_DAY_DATA_BULK` query.  After line 465 `history` is the sorted array. -/
def fetchData (queryPairDayDatas : List String → Nat → List PairDayData)
    (startDateTimestamp now : Nat) (history : List Snapshot) :
    Except String (List LiquidityDay) :=
  match sortedPositions history with
  | [] => .error "TypeError: sortedPositions[0] is undefined"
  | first :: others =>
    let days :=
      pastDayTimestampsFrom (now / 86400) (startDayIndex startDateTimestamp first.timestamp) []
    let pairs := (first :: others).map fun position => position.pair.id
    let pairDayDatas := queryPairDayDatas pairs startDateTimestamp
    liquidityLoop (first :: others) pairDayDatas days [] []

end useUserLiquidityHistory

/-! ## `getReturns` -/

/-- The stablecoin addresses of `priceOverrides`. -/
def priceOverrides : List String :=
  ["0xa0b86991c6218b36c1d19d4a2e9eb0ce3606eb48", "0x6b175474e89094c44da98b954eedeac495271d0f"]

/-- Lines 623-638 (and 639-653): the hard-coded prices of a snapshot taken before the launch.
`ETH` is the constant of `../helpers`. -/
def overridePrices (ETH : String) (position : Snapshot) : Snapshot :=
  if position.timestamp < 1597093302 then
    let p1 :=
      if priceOverrides.contains position.pair.token0Id then { position with token0PriceUSD := 1 }
      else position
    let p2 :=
      if priceOverrides.contains position.pair.token1Id then { p1 with token1PriceUSD := 1 }
      else p1
    let p3 := if position.pair.token0Id = ETH then { p2 with token0PriceUSD := 39584 / 100 } else p2
    if position.pair.token1Id = ETH then { p3 with token1PriceUSD := 39584 / 100 } else p3
  else position

/-- The fields `getReturns` reads from `positionT1`. -/
structure WindowEnd where
  liquidityTokenTotalSupply : ℚ
  reserveUSD : ℚ
  token0PriceUSD : ℚ
  token1PriceUSD : ℚ
  deriving DecidableEq

/-- Lines 592-600: `currentPosition`, read as the end of the last window. -/
def currentPosition (pair : PairData) (ethPrice : ℚ) : WindowEnd :=
  { liquidityTokenTotalSupply := pair.totalSupply
    reserveUSD := pair.reserveUSD
    token0PriceUSD := pair.token0DerivedETH * ethPrice
    token1PriceUSD := pair.token1DerivedETH * ethPrice }

/-- A later snapshot read as the end of a window, after its price override. -/
def windowEndOf (ETH : String) (next : Snapshot) : WindowEnd :=
  let p := overridePrices ETH next
  { liquidityTokenTotalSupply := p.liquidityTokenTotalSupply
    reserveUSD := p.reserveUSD
    token0PriceUSD := p.token0PriceUSD
    token1PriceUSD := p.token1PriceUSD }

/-- Lines 603-610: `totalAmountProvidedUSD`. -/
def totalAmountProvidedUSD (history : List Snapshot) : JsNum :=
  history.foldl
    (fun total positionT0 =>
      total +
        (fin positionT0.liquidityTokenBalance / fin positionT0.liquidityTokenTotalSupply) *
          fin positionT0.reserveUSD)
    (fin 0)

/-- Line 701: the weight of the interval that starts at `positionT0`. -/
def intervalWeight (total : JsNum) (positionT0 : Snapshot) : JsNum :=
  ((fin positionT0.liquidityTokenBalance / fin positionT0.liquidityTokenTotalSupply) *
      fin positionT0.reserveUSD) / total

/-- The accumulators of the loop of `getReturns`. -/
structure ReturnTotals where
  assetReturn : JsNum
  assetPercentChange : JsNum
  netReturn : JsNum
  netPercentChange : JsNum
  deriving DecidableEq

/-- The accumulation `acc = acc ? acc + x : x`. -/
def accumulateTruthy (acc x : JsNum) : JsNum :=
  if acc.truthy then acc + x else x

/-- Lines 655-709: one interval of `getReturns`, with the overridden `positionT0` and the end
of the window. -/
def intervalStep (total : JsNum) (acc : ReturnTotals) (positionT0 : Snapshot)
    (positionT1 : WindowEnd) : ReturnTotals :=
  let t0Ownership :=
    fin positionT0.liquidityTokenBalance / fin positionT0.liquidityTokenTotalSupply
  let t1Ownership :=
    fin positionT0.liquidityTokenBalance / fin positionT1.liquidityTokenTotalSupply
  let token0_amount_t0 := t0Ownership * fin positionT0.reserve0
  let token1_amount_t0 := t0Ownership * fin positionT0.reserve1
  let assetValueT0 :=
    token0_amount_t0 * fin positionT0.token0PriceUSD +
      token1_amount_t0 * fin positionT0.token1PriceUSD
  let assetValueT1 :=
    token0_amount_t0 * fin positionT1.token0PriceUSD +
      token1_amount_t0 * fin positionT1.token1PriceUSD
  let assetValueChange := assetValueT1 - assetValueT0
  let netValueT0 := t0Ownership * fin positionT0.reserveUSD
  let netValueT1 := t1Ownership * fin positionT1.reserveUSD
  let weight := (t0Ownership * fin positionT0.reserveUSD) / total
  let weightedAssetChange := ((weight * assetValueChange) / assetValueT0) * fin 100
  let wieghtedNetChange := ((weight * (netValueT1 - netValueT0)) / netValueT0) * fin 100
  { assetReturn := accumulateTruthy acc.assetReturn assetValueChange
    netReturn :=
      if acc.netReturn.truthy then acc.netReturn + netValueT1 - netValueT0
      else netValueT1 - netValueT0
    assetPercentChange := accumulateTruthy acc.assetPercentChange weightedAssetChange
    netPercentChange := accumulateTruthy acc.netPercentChange wieghtedNetChange }

/-- Lines 612-710: the loop over the intervals, on the rest of the history. -/
def intervalLoop (ETH : String) (total : JsNum) (current : WindowEnd) :
    List Snapshot → ReturnTotals → ReturnTotals
  | [], acc => acc
  | [last], acc => intervalStep total acc (overridePrices ETH last) current
  | positionT0 :: next :: rest, acc =>
    intervalLoop ETH total current (next :: rest)
      (intervalStep total acc (overridePrices ETH positionT0) (windowEndOf ETH next))

/-- One of the three entries of the result of `getReturns`. -/
structure ReturnEntry where
  ret : JsNum
  percent : JsNum
  deriving DecidableEq

/-- The result of `getReturns`: `asset`, `net` and `mooniswap`. -/
structure ReturnSummary where
  asset : ReturnEntry
  net : ReturnEntry
  mooniswap : ReturnEntry
  deriving DecidableEq

/-- The function `getReturns(user, pair, ethPrice)` (lines 572-730) on the `history` its query
returned: the summary, or the `TypeError` thrown at line 593 on an empty history. -/
def getReturns (ETH : String) (history : List Snapshot) (pair : PairData) (ethPrice : ℚ) :
    Except String ReturnSummary :=
  match history.getLast? with
  | none => .error "TypeError: history[history.length - 1] is undefined"
  | some _ =>
    let total := totalAmountProvidedUSD history
    let acc := intervalLoop ETH total (currentPosition pair ethPrice) history
      { assetReturn := fin 0, assetPercentChange := fin 0, netReturn := fin 0,
        netPercentChange := fin 0 }
    .ok
      { asset := { ret := acc.assetReturn, percent := acc.assetPercentChange }
        net := { ret := acc.netReturn, percent := acc.netPercentChange }
        mooniswap :=
          { ret := acc.netReturn - acc.assetReturn
            percent := acc.netPercentChange - acc.assetPercentChange } }

/-! ## `useUserLiquidityChart` -/

/-- Lines 914-919: `while (startTime < utcCurrentTime.unix())`, pushing `startTime` and
adding `84600`. -/
def chartTimestampsFrom (now startTime : Nat) (timestamps : List Nat) : List Nat :=
  if startTime < now then chartTimestampsFrom now (startTime + 84600) (timestamps ++ [startTime])
  else timestamps
termination_by now - startTime
decreasing_by omega

/-- Line 912: the start of the chart. -/
def chartStartTime (startDateTimestamp firstTimestamp : Nat) : Nat :=
  if firstTimestamp > startDateTimestamp then firstTimestamp else startDateTimestamp

/-- The `timestamps` array of `useUserLiquidityChart`. -/
def chartTimestamps (startDateTimestamp firstTimestamp now : Nat) : List Nat :=
  chartTimestampsFrom now (chartStartTime startDateTimestamp firstTimestamp) []

/-- An element of a row of the `POSITIONS_BY_BLOCK` result. -/
structure PairInfo where
  liquidityTokenBalance : ℚ
  pairId : String
  pairTotalSupply : ℚ
  pairReserveUSD : ℚ
  deriving DecidableEq

/-- The `currentDay` object: the per-pair values in assignment order, and `date` and
`valueUSD` when the row key holds a timestamp. -/
structure ChartDay where
  pairs : List (String × JsNum)
  date : Option String
  valueUSD : Option JsNum
  deriving DecidableEq

/-- Lines 932-946: the `currentDay` of one row of `dayDatas`. -/
def chartDay (row : String) (infos : List PairInfo) : ChartDay :=
  match (row.splitOn "t").get? 1 with
  | some timestamp =>
    if timestamp = "" then { pairs := [], date := none, valueUSD := none }
    else
      let values := infos.map fun pairInfo =>
        (pairInfo.pairId,
          (fin pairInfo.liquidityTokenBalance / fin pairInfo.pairTotalSupply) *
            fin pairInfo.pairReserveUSD)
      { pairs := values
        date := some timestamp
        valueUSD := some (values.foldl (fun valueUSD v => valueUSD + v.2) (fin 0)) }
  | none => { pairs := [], date := none, valueUSD := none }

namespace useUserLiquidityChart

/-- The `fetchHistory` of `useUserLiquidityChart` (lines 890-950): the value passed to
`setFormattedHistory`, or the `TypeError` thrown.  `results` is the result of `FIRST_SNAPSHOT`
(`none` when the property is absent), `queryPositions` the block lookup followed by the
`POSITIONS_BY_BLOCK` query, `now` is `utcCurrentTime.unix()`. -/
def fetchHistory (queryPositions : List Nat → List (String × List PairInfo))
    (startDateTimestamp now : Nat) (results : Option (List Snapshot)) :
    Except String (List ChartDay) :=
  match results with
  | some [] => .ok []
  | none => .error "TypeError: results is undefined"
  | some (first :: _) =>
    let timestamps := chartTimestamps startDateTimestamp first.timestamp now
    .ok ((queryPositions timestamps).map fun row => chartDay row.1 row.2)

end useUserLiquidityChart


/-! ## Sample data used by the concrete evaluations -/

/-- The pair of the sample snapshots. -/
def samplePair : PairRef := { id := "0xpair", token0Id := "0xtoken0", token1Id := "0xtoken1" }

/-- The first snapshot: balance 100 of 1000, reserves 1000/1000 worth 2000 USD, prices 1/1. -/
def sampleSnapshot0 : Snapshot :=
  { timestamp := 100, pair := samplePair, liquidityTokenBalance := 100,
    liquidityTokenTotalSupply := 1000, reserve0 := 1000, reserve1 := 1000, reserveUSD := 2000,
    token0PriceUSD := 1, token1PriceUSD := 1 }

/-- A later snapshot, inside the day that starts at 86400: reserves 2000/1000 worth 6000 USD,
prices 1/4. -/
def sampleSnapshot1 : Snapshot :=
  { timestamp := 86450, pair := samplePair, liquidityTokenBalance := 100,
    liquidityTokenTotalSupply := 1000, reserve0 := 2000, reserve1 := 1000, reserveUSD := 6000,
    token0PriceUSD := 1, token1PriceUSD := 4 }

/-- Market data equal to the state of the first snapshot. -/
def sampleMarket : MarketState :=
  { totalSupply := 1000, reserve0 := 1000, reserve1 := 1000, reserveUSD := 2000,
    token0PriceUSD := 1, token1PriceUSD := 1, sharePriceUsd := fin 2 }

/-- The `returns` record after the sample history's day starting at 86400, in which the second
snapshot is selected. -/
def sampleReturns1 : Returns :=
  (processBucket sqrtQ [sampleSnapshot0, sampleSnapshot1] (initReturns sampleSnapshot0) 86400
    sampleMarket).1

/-! ## The T0 comparison state -/

/-- The fields of `returns` that hold the T0 comparison state (lines 258-264). -/
def Returns.t0State (r : Returns) : List ℚ :=
  [r.liquidityTokenBalance, r.totalSupply, r.reserve0, r.reserve1, r.reserveUSD,
    r.token0PriceUSD, r.token1PriceUSD]

/-- Two snapshots that differ at most in `liquidityTokenBalance`. -/
def sameButBalance (a b : Snapshot) : Prop :=
  { a with liquidityTokenBalance := 0 } = { b with liquidityTokenBalance := 0 }

/-- Two values of `positionT1` with the same properties read by the bucket loop. -/
def sameView (p q : PositionT1) : Prop :=
  p.totalSupply = q.totalSupply ∧ p.reserve0 = q.reserve0 ∧ p.reserve1 = q.reserve1 ∧
    p.reserveUSD = q.reserveUSD ∧ p.token0PriceUSD = q.token0PriceUSD ∧
    p.token1PriceUSD = q.token1PriceUSD ∧ p.sharePriceUsd = q.sharePriceUsd

/-- The second sample snapshot with another `liquidityTokenBalance`. -/
def sampleSnapshot1Rebalanced : Snapshot := { sampleSnapshot1 with liquidityTokenBalance := 999 }

/-- A share value with the state of the first sample snapshot, for the day `timestamp`. -/
def sampleShareValue (timestamp : Nat) : ShareValue :=
  { timestamp := timestamp, sharePriceUsd := 2, totalSupply := 1000, reserve0 := 1000,
    reserve1 := 1000, reserveUSD := 2000, ethPrice := 1, token0DerivedETH := 1,
    token1DerivedETH := 1 }

/-- A live pair state equal to the state of the first sample snapshot. -/
def samplePairData : PairData :=
  { id := "0xpair", totalSupply := 1000, reserve0 := 1000, reserve1 := 1000,
    reserveUSD := 2000, token0DerivedETH := 1, token1DerivedETH := 1, sharePriceUsd := none }

/-! ## The reducer -/

/-- The action type `UPDATE_TRANSACTIONS` (line 24). -/
def UPDATE_TRANSACTIONS : String := "UPDATE_TRANSACTIONS"

/-- The action type `UPDATE_POSITIONS` (line 25), with its trailing blank. -/
def UPDATE_POSITIONS : String := "UPDATE_POSITIONS "

/-- The action type `UPDATE_USER_POSITION_HISTORY` (line 26). -/
def UPDATE_USER_POSITION_HISTORY : String := "UPDATE_USER_POSITION_HISTORY"

/-- The action type `UPDATE_USER_PAIR_HODLS_RETURNS` (line 27), which the reducer has no case
for. -/
def UPDATE_USER_PAIR_HODLS_RETURNS : String := "UPDATE_USER_PAIR_HODLS_RETURNS"

/-- The action type `UPDATE_USER_PAIR_RETURNS` (line 35). -/
def UPDATE_USER_PAIR_RETURNS : String := "UPDATE_USER_PAIR_RETURNS"

/-- The key `TRANSACTIONS_KEY` (line 29). -/
def TRANSACTIONS_KEY : String := "TRANSACTIONS_KEY"

/-- The key `POSITIONS_KEY` (line 30). -/
def POSITIONS_KEY : String := "POSITIONS_KEY"

/-- The key `USER_SNAPSHOTS` (line 31). -/
def USER_SNAPSHOTS : String := "USER_SNAPSHOTS"

/-- The key `USER_PAIR_RETURNS_KEY` (line 32). -/
def USER_PAIR_RETURNS_KEY : String := "USER_PAIR_RETURNS_KEY"

/-- The key `USER_POSITION_HISTORY_KEY` (line 33). -/
def USER_POSITION_HISTORY_KEY : String := "USER_POSITION_HISTORY_KEY"

/-- A JavaScript object with string keys: its own properties, in insertion order. -/
abbrev Obj (β : Type) := List (String × β)

/-- The property read `o[key]`: `none` is `undefined`. -/
def objGet {β : Type} : Obj β → String → Option β
  | [], _ => none
  | e :: rest, key => if e.1 = key then some e.2 else objGet rest key

/-- The object `{ ...o, [key]: value }`. -/
def objSet {β : Type} : Obj β → String → β → Obj β
  | [], key, value => [(key, value)]
  | e :: rest, key, value =>
    if e.1 = key then (key, value) :: rest else e :: objSet rest key value

/-- A value kept under a key of an account: a payload as dispatched, or the object of per-pair
data kept under `USER_PAIR_RETURNS_KEY`. -/
inductive Stored (α : Type) where
  | value (v : α)
  | byPair (entries : Obj α)

/-- The state of the context: per account, the object of its cached data. -/
abbrev State (α : Type) := Obj (Obj (Stored α))

/-- An action: its `type`, and from its payload the `account`, the `pairAddress` (read by
`UPDATE_USER_PAIR_RETURNS` only) and the data (`transactions`, `positions`, `historyData` or
`data`). -/
structure Action (α : Type) where
  type : String
  account : String
  pairAddress : String
  data : α

/-- The spread `...state?.[account]`: nothing when the account is absent. -/
def accountOf {α : Type} (state : State α) (account : String) : Obj (Stored α) :=
  (objGet state account).getD []

/-- The spread `...state?.[account]?.[USER_PAIR_RETURNS_KEY]`. -/
def pairReturnsOf {α : Type} (state : State α) (account : String) : Obj α :=
  match objGet (accountOf state account) USER_PAIR_RETURNS_KEY with
  | some (Stored.byPair entries) => entries
  | _ => []

/-- The `reducer` of lines 43-89; the `default` case throws. -/
def reducer {α : Type} (state : State α) (action : Action α) : Except String (State α) :=
  if action.type = UPDATE_TRANSACTIONS then
    .ok (objSet state action.account
      (objSet (accountOf state action.account) TRANSACTIONS_KEY (Stored.value action.data)))
  else if action.type = UPDATE_POSITIONS then
    .ok (objSet state action.account
      (objSet (accountOf state action.account) POSITIONS_KEY (Stored.value action.data)))
  else if action.type = UPDATE_USER_POSITION_HISTORY then
    .ok (objSet state action.account
      (objSet (accountOf state action.account) USER_SNAPSHOTS (Stored.value action.data)))
  else if action.type = UPDATE_USER_PAIR_RETURNS then
    .ok (objSet state action.account
      (objSet (accountOf state action.account) USER_PAIR_RETURNS_KEY
        (Stored.byPair (objSet (pairReturnsOf state action.account) action.pairAddress
          action.data))))
  else .error "Unexpected action type in DataContext reducer"

/-- The `INITIAL_STATE` of line 91. -/
def INITIAL_STATE {α : Type} : State α := []

/-- The state after dispatching `actions` from `INITIAL_STATE`, or the error thrown. -/
def dispatchAll {α : Type} (actions : List (Action α)) : Except String (State α) :=
  actions.foldlM reducer INITIAL_STATE

/-- Lines 189 and 409: `state?.[account]?.[USER_POSITION_HISTORY_KEY]`. -/
def historyOf {α : Type} (state : State α) (account : String) : Option (Stored α) :=
  (objGet state account).bind fun data => objGet data USER_POSITION_HISTORY_KEY

/-- Lines 391-401 and line 555: whether the effect calls `fetchData`, the bucket computation.
`truthy` is the truthiness of a present `history`, `others` the conjunction of the other
operands of the guard. -/
def callsFetchData {α : Type} (history : Option (Stored α)) (truthy : Stored α → Bool)
    (others : Bool) : Bool :=
  match history with
  | none => false
  | some h => truthy h && others

/-- Sample actions: one of each type the reducer accepts, for the account `0xuser`. -/
def sampleActions : List (Action String) :=
  [ { type := UPDATE_USER_POSITION_HISTORY, account := "0xuser", pairAddress := "",
      data := "snapshots" },
    { type := UPDATE_TRANSACTIONS, account := "0xuser", pairAddress := "", data := "txs" },
    { type := UPDATE_POSITIONS, account := "0xuser", pairAddress := "", data := "positions" },
    { type := UPDATE_USER_PAIR_RETURNS, account := "0xuser", pairAddress := "0xpair",
      data := "returns" } ]

/-- The state after `sampleActions`. -/
def sampleState : State String :=
  [("0xuser",
    [(USER_SNAPSHOTS, Stored.value "snapshots"), (TRANSACTIONS_KEY, Stored.value "txs"),
      (POSITIONS_KEY, Stored.value "positions"),
      (USER_PAIR_RETURNS_KEY, Stored.byPair [("0xpair", "returns")])])]

/-! ## IEEE 754 binary64

The decomposition of one bucket is also given over the arithmetic of the code itself: the
operations of IEEE 754 binary64 with rounding to nearest, ties to even. -/

/-- A JavaScript number as an IEEE 754 binary64 value: a finite value `± m * 2 ^ e` (with
`m < 2 ^ 53`, `e ≥ -1074`, and `m ≥ 2 ^ 52` unless `e = -1074`; `m = 0` is the signed zero),
`±Infinity`, or `NaN`. -/
inductive Double where
  | finite (neg : Bool) (m : Nat) (e : Int)
  | inf (neg : Bool)
  | nan
  deriving DecidableEq

namespace Double

/-- The base-2 logarithm of `n`, rounded down, by repeated halving (`0` for `n < 2`). -/
def log2Fuel : Nat → Nat → Nat
  | 0, _ => 0
  | fuel + 1, n => if 2 ≤ n then log2Fuel fuel (n / 2) + 1 else 0

/-- The base-2 logarithm of `n`, rounded down. -/
def log2 (n : Nat) : Nat := log2Fuel n n

/-- The base-2 logarithm of the positive fraction `n / d`, rounded down. -/
def floorLog2 (n d : Nat) : Int :=
  if log2 d ≤ log2 n then
    (if d * 2 ^ (log2 n - log2 d) ≤ n then (log2 n : Int) - (log2 d : Int)
      else (log2 n : Int) - (log2 d : Int) - 1)
  else
    (if d ≤ n * 2 ^ (log2 d - log2 n) then (log2 n : Int) - (log2 d : Int)
      else (log2 n : Int) - (log2 d : Int) - 1)

/-- The integer nearest to `n / d`, ties to even. -/
def roundHalfEven (n d : Nat) : Nat :=
  if 2 * (n % d) < d then n / d
  else if d < 2 * (n % d) then n / d + 1
  else n / d + (n / d) % 2

/-- The binary64 value nearest to `± n / d` for positive `n` and `d`, ties to even: 53
significant bits, gradual underflow below `2 ^ (-1022)`, overflow to infinity. -/
def roundFrac (neg : Bool) (n d : Nat) : Double :=
  let e := max (floorLog2 n d) (-1022)
  let s := 52 - e
  let m :=
    if 0 ≤ s then roundHalfEven (n * 2 ^ s.toNat) d
    else roundHalfEven n (d * 2 ^ (-s).toNat)
  if m = 2 ^ 53 then
    (if 971 < -s + 1 then inf neg else finite neg (2 ^ 52) (-s + 1))
  else if 971 < -s then inf neg
  else finite neg m (-s)

/-- The number `+0`. -/
def zero : Double := finite false 0 (-1074)

/-- The binary64 value of a natural number, as of an integer numeral. -/
def ofNat (n : Nat) : Double := if n = 0 then zero else roundFrac false n 1

/-- Whether the value is finite. -/
def isFinite : Double → Bool
  | finite _ _ _ => true
  | _ => false

/-- The exact value of a finite number (`0` for a non-finite one). -/
def toRat : Double → ℚ
  | finite neg m e => (if neg then -1 else 1) * (m : ℚ) * (2 : ℚ) ^ e
  | _ => 0

/-- The finite value `± m * 2 ^ e` as a multiple of `2 ^ (-1074)`. -/
def scaled (neg : Bool) (m : Nat) (e : Int) : Int :=
  (if neg then -1 else 1) * ((m * 2 ^ (e + 1074).toNat : Nat) : Int)

/-- JavaScript `a + b`. -/
def add : Double → Double → Double
  | nan, _ => nan
  | _, nan => nan
  | inf a, inf b => if a = b then inf a else nan
  | inf a, finite _ _ _ => inf a
  | finite _ _ _, inf b => inf b
  | finite n1 m1 e1, finite n2 m2 e2 =>
    if scaled n1 m1 e1 + scaled n2 m2 e2 = 0 then finite (n1 && n2) 0 (-1074)
    else
      roundFrac (decide (scaled n1 m1 e1 + scaled n2 m2 e2 < 0))
        (scaled n1 m1 e1 + scaled n2 m2 e2).natAbs (2 ^ 1074)

/-- JavaScript `-a`. -/
def neg : Double → Double
  | nan => nan
  | inf a => inf (!a)
  | finite n m e => finite (!n) m e

/-- JavaScript `a - b`. -/
def sub (a b : Double) : Double := add a (neg b)

/-- JavaScript `a * b`. -/
def mul : Double → Double → Double
  | nan, _ => nan
  | _, nan => nan
  | inf a, inf b => inf (xor a b)
  | inf a, finite n m _ => if m = 0 then nan else inf (xor a n)
  | finite n m _, inf b => if m = 0 then nan else inf (xor n b)
  | finite n1 m1 e1, finite n2 m2 e2 =>
    if m1 * m2 = 0 then finite (xor n1 n2) 0 (-1074)
    else roundFrac (xor n1 n2) (m1 * m2 * 2 ^ (e1 + e2).toNat) (2 ^ (-(e1 + e2)).toNat)

/-- JavaScript `a / b`. -/
def div : Double → Double → Double
  | nan, _ => nan
  | _, nan => nan
  | inf _, inf _ => nan
  | inf a, finite n _ _ => inf (xor a n)
  | finite n _ _, inf b => finite (xor n b) 0 (-1074)
  | finite n1 m1 e1, finite n2 m2 e2 =>
    if m2 = 0 then (if m1 = 0 then nan else inf (xor n1 n2))
    else if m1 = 0 then finite (xor n1 n2) 0 (-1074)
    else roundFrac (xor n1 n2) (m1 * 2 ^ (e1 - e2).toNat) (m2 * 2 ^ (e2 - e1).toNat)

/-- The square root of `n`, rounded down, found bit by bit from bit `k - 1` down. -/
def isqrtBits (n : Nat) : Nat → Nat → Nat
  | 0, r => r
  | k + 1, r =>
    if (r + 2 ^ k) * (r + 2 ^ k) ≤ n then isqrtBits n k (r + 2 ^ k) else isqrtBits n k r

/-- The square root of `n`, rounded down. -/
def isqrt (n : Nat) : Nat := isqrtBits n (log2 n / 2 + 1) 0

/-- JavaScript `Math.sqrt(a)`, correctly rounded.  The value `m * 2 ^ e` is written
`M * 2 ^ (2 * h)` with `M = m` or `M = 2 * m`; the root of `M`, scaled to 53 bits, is rounded
to nearest (a tie cannot occur). -/
def sqrt : Double → Double
  | nan => nan
  | inf a => if a then nan else inf false
  | finite n m e =>
    if m = 0 then finite n 0 (-1074)
    else if n then nan
    else
      let M := if e % 2 = 0 then m else 2 * m
      let h := e / 2
      let t := 52 - log2 M / 2
      let X := M * 2 ^ (2 * t)
      let r := isqrt X
      let r' := if r < X - r * r then r + 1 else r
      if r' = 2 ^ 53 then finite false (2 ^ 52) (h - t + 1) else finite false r' (h - t)

end Double

/-! ## The decomposition over the arithmetic of the code -/

/-- The arithmetic the computations use: integer literals, the four operations and
`Math.sqrt`. -/
structure Arith (F : Type) where
  ofNat : Nat → F
  add : F → F → F
  sub : F → F → F
  mul : F → F → F
  div : F → F → F
  sqrt : F → F

/-- The exact arithmetic of `JsNum`, over the square-root function `sqrt`. -/
def JsNum.arith (sqrt : ℚ → ℚ) : Arith JsNum :=
  { ofNat := fun n => fin n, add := JsNum.add, sub := JsNum.sub, mul := JsNum.mul,
    div := JsNum.div, sqrt := JsNum.sqrtWith sqrt }

/-- The arithmetic of the code: IEEE 754 binary64. -/
def Double.arith : Arith Double :=
  { ofNat := Double.ofNat, add := Double.add, sub := Double.sub, mul := Double.mul,
    div := Double.div, sqrt := Double.sqrt }

/-- The numbers read from `positionT0` (after `parseFloat`). -/
structure T0Values (F : Type) where
  liquidityTokenBalance : F
  totalSupply : F
  reserve0 : F
  reserve1 : F
  reserveUSD : F
  token0PriceUSD : F
  token1PriceUSD : F

/-- The numbers read from `positionT1` (after `parseFloat`, or as computed at lines
292-293). -/
structure T1Values (F : Type) where
  totalSupply : F
  reserve0 : F
  reserve1 : F
  reserveUSD : F
  token0PriceUSD : F
  token1PriceUSD : F

/-- The constants computed for one bucket (lines 313-354), over the numbers `F`. -/
structure BucketValuesIn (F : Type) where
  t0Ownership : F
  t1Ownership : F
  token0_amount_t0 : F
  token1_amount_t0 : F
  token0_amount_t1 : F
  token1_amount_t1 : F
  sqrK_t0 : F
  token0_amount_no_fees : F
  token1_amount_no_fees : F
  no_fees_usd : F
  difference_fees_token0 : F
  difference_fees_token1 : F
  difference_fees_usd : F
  assetValueT0 : F
  assetValueT1 : F
  imp_loss_usd : F
  mooniswap_return : F
  assetReturn : F
  netValueT0 : F
  netValueT1 : F

/-- Lines 313-354 over the arithmetic `A`: the same computation as `bucketValues`, operation by
operation. -/
def bucketValuesIn {F : Type} (A : Arith F) (positionT0 : T0Values F)
    (positionT1 : T1Values F) : BucketValuesIn F :=
  let t0Ownership := A.div positionT0.liquidityTokenBalance positionT0.totalSupply
  let t1Ownership := A.div positionT0.liquidityTokenBalance positionT1.totalSupply
  let token0_amount_t0 := A.mul t0Ownership positionT0.reserve0
  let token1_amount_t0 := A.mul t0Ownership positionT0.reserve1
  let token0_amount_t1 := A.mul t1Ownership positionT1.reserve0
  let token1_amount_t1 := A.mul t1Ownership positionT1.reserve1
  let sqrK_t0 := A.sqrt (A.mul token0_amount_t0 token1_amount_t0)
  let token0_amount_no_fees := A.mul sqrK_t0 (A.sqrt positionT1.token1PriceUSD)
  let token1_amount_no_fees := A.div sqrK_t0 (A.sqrt positionT1.token1PriceUSD)
  let no_fees_usd :=
    A.add (A.mul token0_amount_no_fees positionT1.token0PriceUSD)
      (A.mul token1_amount_no_fees positionT1.token1PriceUSD)
  let difference_fees_token0 := A.sub token0_amount_t1 token0_amount_no_fees
  let difference_fees_token1 := A.sub token1_amount_t1 token1_amount_no_fees
  let difference_fees_usd :=
    A.add (A.mul difference_fees_token0 positionT1.token0PriceUSD)
      (A.mul difference_fees_token1 positionT1.token1PriceUSD)
  let assetValueT0 :=
    A.add (A.mul token0_amount_t0 positionT0.token0PriceUSD)
      (A.mul token1_amount_t0 positionT0.token1PriceUSD)
  let assetValueT1 :=
    A.add (A.mul token0_amount_t0 positionT1.token0PriceUSD)
      (A.mul token1_amount_t0 positionT1.token1PriceUSD)
  let imp_loss_usd := A.sub no_fees_usd assetValueT1
  let mooniswap_return := A.add difference_fees_usd imp_loss_usd
  let assetReturn := A.sub assetValueT1 assetValueT0
  let netValueT0 := A.mul t0Ownership positionT0.reserveUSD
  let netValueT1 := A.mul t1Ownership positionT1.reserveUSD
  { t0Ownership := t0Ownership
    t1Ownership := t1Ownership
    token0_amount_t0 := token0_amount_t0
    token1_amount_t0 := token1_amount_t0
    token0_amount_t1 := token0_amount_t1
    token1_amount_t1 := token1_amount_t1
    sqrK_t0 := sqrK_t0
    token0_amount_no_fees := token0_amount_no_fees
    token1_amount_no_fees := token1_amount_no_fees
    no_fees_usd := no_fees_usd
    difference_fees_token0 := difference_fees_token0
    difference_fees_token1 := difference_fees_token1
    difference_fees_usd := difference_fees_usd
    assetValueT0 := assetValueT0
    assetValueT1 := assetValueT1
    imp_loss_usd := imp_loss_usd
    mooniswap_return := mooniswap_return
    assetReturn := assetReturn
    netValueT0 := netValueT0
    netValueT1 := netValueT1 }

/-- The numbers `bucketValues` reads from `returns`. -/
def Returns.t0Values (r : Returns) : T0Values JsNum :=
  { liquidityTokenBalance := fin r.liquidityTokenBalance
    totalSupply := fin r.totalSupply
    reserve0 := fin r.reserve0
    reserve1 := fin r.reserve1
    reserveUSD := fin r.reserveUSD
    token0PriceUSD := fin r.token0PriceUSD
    token1PriceUSD := fin r.token1PriceUSD }

/-- The numbers `bucketValues` reads from `positionT1`. -/
def PositionT1.t1Values (p : PositionT1) : T1Values JsNum :=
  { totalSupply := fin p.totalSupply
    reserve0 := fin p.reserve0
    reserve1 := fin p.reserve1
    reserveUSD := fin p.reserveUSD
    token0PriceUSD := fin p.token0PriceUSD
    token1PriceUSD := fin p.token1PriceUSD }

/-- The values of the exact model as values over `JsNum`. -/
def BucketValues.toIn (v : BucketValues) : BucketValuesIn JsNum :=
  { t0Ownership := v.t0Ownership
    t1Ownership := v.t1Ownership
    token0_amount_t0 := v.token0_amount_t0
    token1_amount_t0 := v.token1_amount_t0
    token0_amount_t1 := v.token0_amount_t1
    token1_amount_t1 := v.token1_amount_t1
    sqrK_t0 := v.sqrK_t0
    token0_amount_no_fees := v.token0_amount_no_fees
    token1_amount_no_fees := v.token1_amount_no_fees
    no_fees_usd := v.no_fees_usd
    difference_fees_token0 := v.difference_fees_token0
    difference_fees_token1 := v.difference_fees_token1
    difference_fees_usd := v.difference_fees_usd
    assetValueT0 := v.assetValueT0
    assetValueT1 := v.assetValueT1
    imp_loss_usd := v.imp_loss_usd
    mooniswap_return := v.mooniswap_return
    assetReturn := v.assetReturn
    netValueT0 := v.netValueT0
    netValueT1 := v.netValueT1 }

/-- The values of a bucket in the order of their computation. -/
def BucketValuesIn.toList {F : Type} (v : BucketValuesIn F) : List F :=
  [v.t0Ownership, v.t1Ownership, v.token0_amount_t0, v.token1_amount_t0, v.token0_amount_t1,
    v.token1_amount_t1, v.sqrK_t0, v.token0_amount_no_fees, v.token1_amount_no_fees,
    v.no_fees_usd, v.difference_fees_token0, v.difference_fees_token1, v.difference_fees_usd,
    v.assetValueT0, v.assetValueT1, v.imp_loss_usd, v.mooniswap_return, v.assetReturn,
    v.netValueT0, v.netValueT1]

/-! ## Values computed without rounding error

A value of the bucket carries no rounding error when it is finite and equals the exact result
of its expression on the values of its operands.  The four predicates below say so for the
four groups of values the relations between them need. -/

/-- The fee-free counterfactual of lines 326-328 carries no rounding error: both square
roots square back to their arguments, and the two amounts are the exact product and
quotient. -/
structure ExactCounterfactual (positionT1 : T1Values Double) (v : BucketValuesIn Double) :
    Prop where
  finite : ∀ x ∈ [v.token0_amount_t0, v.token1_amount_t0, v.sqrK_t0, positionT1.token1PriceUSD,
      Double.sqrt positionT1.token1PriceUSD, v.token0_amount_no_fees,
      v.token1_amount_no_fees], x.isFinite = true
  sqrK_t0 :
    v.sqrK_t0.toRat * v.sqrK_t0.toRat = v.token0_amount_t0.toRat * v.token1_amount_t0.toRat
  sqrtPrice :
    (Double.sqrt positionT1.token1PriceUSD).toRat *
        (Double.sqrt positionT1.token1PriceUSD).toRat =
      positionT1.token1PriceUSD.toRat
  token0_amount_no_fees :
    v.token0_amount_no_fees.toRat =
      v.sqrK_t0.toRat * (Double.sqrt positionT1.token1PriceUSD).toRat
  token1_amount_no_fees :
    v.token1_amount_no_fees.toRat =
      v.sqrK_t0.toRat / (Double.sqrt positionT1.token1PriceUSD).toRat

/-- The values of lines 329-347 that lead to `mooniswap_return` carry no rounding error. -/
structure ExactPoolReturn (positionT1 : T1Values Double) (v : BucketValuesIn Double) :
    Prop where
  finite : ∀ x ∈ [positionT1.token0PriceUSD, positionT1.token1PriceUSD, v.token0_amount_t0,
      v.token1_amount_t0, v.token0_amount_t1, v.token1_amount_t1, v.token0_amount_no_fees,
      v.token1_amount_no_fees, v.no_fees_usd, v.difference_fees_token0,
      v.difference_fees_token1, v.difference_fees_usd, v.assetValueT1, v.imp_loss_usd,
      v.mooniswap_return], x.isFinite = true
  no_fees_usd :
    v.no_fees_usd.toRat =
      v.token0_amount_no_fees.toRat * positionT1.token0PriceUSD.toRat +
        v.token1_amount_no_fees.toRat * positionT1.token1PriceUSD.toRat
  difference_fees_token0 :
    v.difference_fees_token0.toRat = v.token0_amount_t1.toRat - v.token0_amount_no_fees.toRat
  difference_fees_token1 :
    v.difference_fees_token1.toRat = v.token1_amount_t1.toRat - v.token1_amount_no_fees.toRat
  difference_fees_usd :
    v.difference_fees_usd.toRat =
      v.difference_fees_token0.toRat * positionT1.token0PriceUSD.toRat +
        v.difference_fees_token1.toRat * positionT1.token1PriceUSD.toRat
  assetValueT1 :
    v.assetValueT1.toRat =
      v.token0_amount_t0.toRat * positionT1.token0PriceUSD.toRat +
        v.token1_amount_t0.toRat * positionT1.token1PriceUSD.toRat
  imp_loss_usd : v.imp_loss_usd.toRat = v.no_fees_usd.toRat - v.assetValueT1.toRat
  mooniswap_return :
    v.mooniswap_return.toRat = v.difference_fees_usd.toRat + v.imp_loss_usd.toRat

/-- The values of lines 340-350 that lead to `assetReturn` carry no rounding error. -/
structure ExactAssetReturn (positionT0 : T0Values Double) (positionT1 : T1Values Double)
    (v : BucketValuesIn Double) : Prop where
  finite : ∀ x ∈ [positionT0.token0PriceUSD, positionT0.token1PriceUSD,
      positionT1.token0PriceUSD, positionT1.token1PriceUSD, v.token0_amount_t0,
      v.token1_amount_t0, v.assetValueT0, v.assetValueT1, v.assetReturn], x.isFinite = true
  assetValueT0 :
    v.assetValueT0.toRat =
      v.token0_amount_t0.toRat * positionT0.token0PriceUSD.toRat +
        v.token1_amount_t0.toRat * positionT0.token1PriceUSD.toRat
  assetValueT1 :
    v.assetValueT1.toRat =
      v.token0_amount_t0.toRat * positionT1.token0PriceUSD.toRat +
        v.token1_amount_t0.toRat * positionT1.token1PriceUSD.toRat
  assetReturn : v.assetReturn.toRat = v.assetValueT1.toRat - v.assetValueT0.toRat

/-- The token amounts and the net values (lines 317-324 and 353-354) carry no rounding error:
each is the exact share `liquidityTokenBalance / totalSupply` of its reserve or of
`reserveUSD`. -/
structure ExactShares (positionT0 : T0Values Double) (positionT1 : T1Values Double)
    (v : BucketValuesIn Double) : Prop where
  finite : ∀ x ∈ [positionT0.liquidityTokenBalance, positionT0.totalSupply,
      positionT0.reserve0, positionT0.reserve1, positionT0.reserveUSD, positionT1.totalSupply,
      positionT1.reserve0, positionT1.reserve1, positionT1.reserveUSD, v.token0_amount_t0,
      v.token1_amount_t0, v.token0_amount_t1, v.token1_amount_t1, v.netValueT0,
      v.netValueT1], x.isFinite = true
  supplyT0 : positionT0.totalSupply.toRat ≠ 0
  supplyT1 : positionT1.totalSupply.toRat ≠ 0
  token0_amount_t0 :
    v.token0_amount_t0.toRat =
      positionT0.liquidityTokenBalance.toRat / positionT0.totalSupply.toRat *
        positionT0.reserve0.toRat
  token1_amount_t0 :
    v.token1_amount_t0.toRat =
      positionT0.liquidityTokenBalance.toRat / positionT0.totalSupply.toRat *
        positionT0.reserve1.toRat
  token0_amount_t1 :
    v.token0_amount_t1.toRat =
      positionT0.liquidityTokenBalance.toRat / positionT1.totalSupply.toRat *
        positionT1.reserve0.toRat
  token1_amount_t1 :
    v.token1_amount_t1.toRat =
      positionT0.liquidityTokenBalance.toRat / positionT1.totalSupply.toRat *
        positionT1.reserve1.toRat
  netValueT0 :
    v.netValueT0.toRat =
      positionT0.liquidityTokenBalance.toRat / positionT0.totalSupply.toRat *
        positionT0.reserveUSD.toRat
  netValueT1 :
    v.netValueT1.toRat =
      positionT0.liquidityTokenBalance.toRat / positionT1.totalSupply.toRat *
        positionT1.reserveUSD.toRat

/-! ## The intervals of `getReturns` over the arithmetic of the code -/

/-- The numbers `getReturns` reads from `positionT0` (after `parseFloat`). -/
structure SnapshotValues (F : Type) where
  liquidityTokenBalance : F
  liquidityTokenTotalSupply : F
  reserve0 : F
  reserve1 : F
  reserveUSD : F
  token0PriceUSD : F
  token1PriceUSD : F

/-- The numbers `getReturns` reads from `positionT1` (after `parseFloat`). -/
structure WindowEndIn (F : Type) where
  liquidityTokenTotalSupply : F
  reserveUSD : F
  token0PriceUSD : F
  token1PriceUSD : F

/-- A snapshot read as the end of the window before it. -/
def SnapshotValues.windowEnd {F : Type} (next : SnapshotValues F) : WindowEndIn F :=
  { liquidityTokenTotalSupply := next.liquidityTokenTotalSupply
    reserveUSD := next.reserveUSD
    token0PriceUSD := next.token0PriceUSD
    token1PriceUSD := next.token1PriceUSD }

/-- Lines 603-610: `totalAmountProvidedUSD`, over the arithmetic `A`.  The price overrides of
lines 623-653 do not touch the three fields read here. -/
def totalAmountProvidedUSDIn {F : Type} (A : Arith F) (history : List (SnapshotValues F)) : F :=
  history.foldl
    (fun total positionT0 =>
      A.add total
        (A.mul (A.div positionT0.liquidityTokenBalance positionT0.liquidityTokenTotalSupply)
          positionT0.reserveUSD))
    (A.ofNat 0)

/-- The constants computed for one interval of `getReturns` (lines 655-705). -/
structure IntervalValuesIn (F : Type) where
  t0Ownership : F
  t1Ownership : F
  token0_amount_t0 : F
  token1_amount_t0 : F
  assetValueT0 : F
  assetValueT1 : F
  assetValueChange : F
  netValueT0 : F
  netValueT1 : F
  weight : F
  weightedAssetChange : F
  wieghtedNetChange : F

/-- Lines 655-705 over the arithmetic `A`: the constants of the interval from `positionT0` to
`positionT1`, with `totalAmountProvidedUSD` of lines 603-610. -/
def intervalValuesIn {F : Type} (A : Arith F) (totalAmountProvidedUSD : F)
    (positionT0 : SnapshotValues F) (positionT1 : WindowEndIn F) : IntervalValuesIn F :=
  let t0Ownership := A.div positionT0.liquidityTokenBalance positionT0.liquidityTokenTotalSupply
  let t1Ownership := A.div positionT0.liquidityTokenBalance positionT1.liquidityTokenTotalSupply
  let token0_amount_t0 := A.mul t0Ownership positionT0.reserve0
  let token1_amount_t0 := A.mul t0Ownership positionT0.reserve1
  let assetValueT0 :=
    A.add (A.mul token0_amount_t0 positionT0.token0PriceUSD)
      (A.mul token1_amount_t0 positionT0.token1PriceUSD)
  let assetValueT1 :=
    A.add (A.mul token0_amount_t0 positionT1.token0PriceUSD)
      (A.mul token1_amount_t0 positionT1.token1PriceUSD)
  let assetValueChange := A.sub assetValueT1 assetValueT0
  let netValueT0 := A.mul t0Ownership positionT0.reserveUSD
  let netValueT1 := A.mul t1Ownership positionT1.reserveUSD
  let weight := A.div (A.mul t0Ownership positionT0.reserveUSD) totalAmountProvidedUSD
  let weightedAssetChange :=
    A.mul (A.div (A.mul weight assetValueChange) assetValueT0) (A.ofNat 100)
  let wieghtedNetChange :=
    A.mul (A.div (A.mul weight (A.sub netValueT1 netValueT0)) netValueT0) (A.ofNat 100)
  { t0Ownership := t0Ownership
    t1Ownership := t1Ownership
    token0_amount_t0 := token0_amount_t0
    token1_amount_t0 := token1_amount_t0
    assetValueT0 := assetValueT0
    assetValueT1 := assetValueT1
    assetValueChange := assetValueChange
    netValueT0 := netValueT0
    netValueT1 := netValueT1
    weight := weight
    weightedAssetChange := weightedAssetChange
    wieghtedNetChange := wieghtedNetChange }

/-- Lines 612-621: the windows of the loop, each snapshot of the history with the end of its
window: the next snapshot, or `currentPosition` for the last one. -/
def windowsIn {F : Type} (current : WindowEndIn F) :
    List (SnapshotValues F) → List (SnapshotValues F × WindowEndIn F)
  | [] => []
  | [last] => [(last, current)]
  | positionT0 :: next :: rest => (positionT0, next.windowEnd) :: windowsIn current (next :: rest)

/-- The values of `weight` (line 701) over the loop of `getReturns`, one per interval. -/
def intervalWeightsIn {F : Type} (A : Arith F) (history : List (SnapshotValues F))
    (current : WindowEndIn F) : List F :=
  (windowsIn current history).map
    (fun w => (intervalValuesIn A (totalAmountProvidedUSDIn A history) w.1 w.2).weight)

/-- The USD amount provided at a snapshot: the term of line 608-609, which is also the
numerator of `weight` at line 701. -/
def providedUSDIn {F : Type} (A : Arith F) (positionT0 : SnapshotValues F) : F :=
  A.mul (A.div positionT0.liquidityTokenBalance positionT0.liquidityTokenTotalSupply)
    positionT0.reserveUSD

/-- The sum of a list of numbers as the code would add them: from the left, starting at
`0`. -/
def sumIn {F : Type} (A : Arith F) (xs : List F) : F :=
  xs.foldl A.add (A.ofNat 0)

/-- The numbers of a snapshot in the exact model. -/
def Snapshot.values (s : Snapshot) : SnapshotValues JsNum :=
  { liquidityTokenBalance := fin s.liquidityTokenBalance
    liquidityTokenTotalSupply := fin s.liquidityTokenTotalSupply
    reserve0 := fin s.reserve0
    reserve1 := fin s.reserve1
    reserveUSD := fin s.reserveUSD
    token0PriceUSD := fin s.token0PriceUSD
    token1PriceUSD := fin s.token1PriceUSD }

/-- The end of a window in the exact model. -/
def WindowEnd.values (w : WindowEnd) : WindowEndIn JsNum :=
  { liquidityTokenTotalSupply := fin w.liquidityTokenTotalSupply
    reserveUSD := fin w.reserveUSD
    token0PriceUSD := fin w.token0PriceUSD
    token1PriceUSD := fin w.token1PriceUSD }

/-! ## Sample data in binary64 -/

/-- T0 of the first sample snapshot: balance 100 of 1000, reserves 1000/1000 worth 2000 USD,
prices 1/1. -/
def sampleT0 : T0Values Double :=
  { liquidityTokenBalance := Double.ofNat 100, totalSupply := Double.ofNat 1000,
    reserve0 := Double.ofNat 1000, reserve1 := Double.ofNat 1000,
    reserveUSD := Double.ofNat 2000, token0PriceUSD := Double.ofNat 1,
    token1PriceUSD := Double.ofNat 1 }

/-- T1 with the values of `sampleT0`. -/
def sampleT1 : T1Values Double :=
  { totalSupply := Double.ofNat 1000, reserve0 := Double.ofNat 1000,
    reserve1 := Double.ofNat 1000, reserveUSD := Double.ofNat 2000,
    token0PriceUSD := Double.ofNat 1, token1PriceUSD := Double.ofNat 1 }

/-- T1 of the second sample snapshot: reserves 2000/1000 worth 6000 USD, prices 1/4. -/
def sampleT1Changed : T1Values Double :=
  { totalSupply := Double.ofNat 1000, reserve0 := Double.ofNat 2000,
    reserve1 := Double.ofNat 1000, reserveUSD := Double.ofNat 6000,
    token0PriceUSD := Double.ofNat 1, token1PriceUSD := Double.ofNat 4 }

/-- T1 with the values of `sampleT0` but for `token0PriceUSD = 2`. -/
def sampleT1Appreciated : T1Values Double :=
  { sampleT1 with token0PriceUSD := Double.ofNat 2 }

/-- T0 with `token1PriceUSD = 2` and the matching `reserveUSD = 1000 * 1 + 1000 * 2`. -/
def sampleT0Price2 : T0Values Double :=
  { sampleT0 with token1PriceUSD := Double.ofNat 2, reserveUSD := Double.ofNat 3000 }

/-- T1 with the values of `sampleT0Price2`. -/
def sampleT1Price2 : T1Values Double :=
  { sampleT1 with token1PriceUSD := Double.ofNat 2, reserveUSD := Double.ofNat 3000 }

/-- T0 with balance 1 of 3, reserves 1000/1000, prices 1/1. -/
def sampleT0Third : T0Values Double :=
  { sampleT0 with liquidityTokenBalance := Double.ofNat 1, totalSupply := Double.ofNat 3 }

/-- T1 for `sampleT0Third`: `token0PriceUSD = 2`, `token1PriceUSD = 1`. -/
def sampleT1Third : T1Values Double :=
  { sampleT1 with totalSupply := Double.ofNat 3, token0PriceUSD := Double.ofNat 2 }

/-- T0 with balance 1 of 1, reserves 1 and `10 ^ 20`, prices 1/1. -/
def sampleT0Wide : T0Values Double :=
  { liquidityTokenBalance := Double.ofNat 1, totalSupply := Double.ofNat 1,
    reserve0 := Double.ofNat 1, reserve1 := Double.ofNat (10 ^ 20),
    reserveUSD := Double.ofNat (10 ^ 20), token0PriceUSD := Double.ofNat 1,
    token1PriceUSD := Double.ofNat 1 }

/-- T1 for `sampleT0Wide`: `token0PriceUSD = 2`, `token1PriceUSD = 1`. -/
def sampleT1Wide : T1Values Double :=
  { totalSupply := Double.ofNat 1, reserve0 := Double.ofNat 1,
    reserve1 := Double.ofNat (10 ^ 20), reserveUSD := Double.ofNat (10 ^ 20),
    token0PriceUSD := Double.ofNat 2, token1PriceUSD := Double.ofNat 1 }

/-- A snapshot of `getReturns` with balance 100 of 1000, reserves 1000/1000, prices 1/1 and
`reserveUSD`. -/
def sampleValues (reserveUSD : Nat) : SnapshotValues Double :=
  { liquidityTokenBalance := Double.ofNat 100, liquidityTokenTotalSupply := Double.ofNat 1000,
    reserve0 := Double.ofNat 1000, reserve1 := Double.ofNat 1000,
    reserveUSD := Double.ofNat reserveUSD, token0PriceUSD := Double.ofNat 1,
    token1PriceUSD := Double.ofNat 1 }

/-- The current position: total supply 1000 worth 2000 USD, prices 1/1. -/
def sampleCurrent : WindowEndIn Double :=
  { liquidityTokenTotalSupply := Double.ofNat 1000, reserveUSD := Double.ofNat 2000,
    token0PriceUSD := Double.ofNat 1, token1PriceUSD := Double.ofNat 1 }

/-- A history of ten equal snapshots, each providing 200 USD. -/
def sampleTenEqual : List (SnapshotValues Double) :=
  List.replicate 10 (sampleValues 2000)

/-- The two sample snapshots: 200 and 600 USD provided. -/
def sampleTwo : List (SnapshotValues Double) :=
  [sampleValues 2000, sampleValues 6000]

/-! ## Arithmetic of `JsNum` -/

namespace JsNum

@[simp] theorem fin_add_fin (x y : ℚ) : fin x + fin y = fin (x + y) := rfl
@[simp] theorem fin_sub_fin (x y : ℚ) : fin x - fin y = fin (x - y) := rfl
@[simp] theorem fin_mul_fin (x y : ℚ) : fin x * fin y = fin (x * y) := rfl
theorem fin_div_fin (x y : ℚ) :
    fin x / fin y = if y = 0 then nonFinite else fin (x / y) := rfl
@[simp] theorem fin_div_fin_of_ne (x : ℚ) {y : ℚ} (h : y ≠ 0) : fin x / fin y = fin (x / y) := by
  rw [fin_div_fin, if_neg h]
@[simp] theorem fin_div_zero (x : ℚ) : fin x / fin 0 = nonFinite := by
  rw [fin_div_fin, if_pos rfl]
@[simp] theorem nonFinite_add (a : JsNum) : nonFinite + a = nonFinite := rfl
@[simp] theorem add_nonFinite (a : JsNum) : a + nonFinite = nonFinite := by cases a <;> rfl
@[simp] theorem nonFinite_sub (a : JsNum) : nonFinite - a = nonFinite := rfl
@[simp] theorem sub_nonFinite (a : JsNum) : a - nonFinite = nonFinite := by cases a <;> rfl
@[simp] theorem nonFinite_mul (a : JsNum) : nonFinite * a = nonFinite := rfl
@[simp] theorem mul_nonFinite (a : JsNum) : a * nonFinite = nonFinite := by cases a <;> rfl
@[simp] theorem nonFinite_div (a : JsNum) : nonFinite / a = nonFinite := rfl
@[simp] theorem div_nonFinite (a : JsNum) : a / nonFinite = nonFinite := by cases a <;> rfl
@[simp] theorem sqrtWith_nonFinite (sqrt : ℚ → ℚ) : sqrtWith sqrt nonFinite = nonFinite := rfl
theorem sqrtWith_fin (sqrt : ℚ → ℚ) (x : ℚ) :
    sqrtWith sqrt (fin x) = if x < 0 then nonFinite else fin (sqrt x) := rfl
@[simp] theorem sqrtWith_fin_of_nonneg (sqrt : ℚ → ℚ) {x : ℚ} (h : 0 ≤ x) :
    sqrtWith sqrt (fin x) = fin (sqrt x) := by
  rw [sqrtWith_fin, if_neg (not_lt.mpr h)]

end JsNum

theorem sqrtQ_zero : sqrtQ 0 = 0 := by simp [sqrtQ]

theorem sqrtQ_one : sqrtQ 1 = 1 := by simp [sqrtQ]

theorem sqrtQ_four : sqrtQ 4 = 2 := by
  have h : Nat.sqrt 4 = 2 := Nat.sqrt_eq 2
  simp [sqrtQ, h]

theorem sqrtQ_10000 : sqrtQ 10000 = 100 := by
  have h : Nat.sqrt 10000 = 100 := Nat.sqrt_eq 100
  simp [sqrtQ, h]

/-! ## The selection loop -/

theorem bucketValues_lastUpdated (sqrt : ℚ → ℚ) (returns : Returns) (t : Nat)
    (positionT1 : PositionT1) :
    bucketValues sqrt { returns with lastUpdated := t } positionT1 =
      bucketValues sqrt returns positionT1 := rfl

theorem foldl_selectStep_needsUpdate_true (changes : List Snapshot) (st : Selection)
    (h : st.needsUpdate = true) : (changes.foldl selectStep st).needsUpdate = true := by
  induction changes generalizing st with
  | nil => simpa using h
  | cons a l ih =>
    simp only [List.foldl_cons]
    apply ih
    unfold selectStep
    split <;> simp [h]

theorem foldl_selectStep_eq_of_needsUpdate_false (changes : List Snapshot) (st : Selection)
    (h : (changes.foldl selectStep st).needsUpdate = false) :
    changes.foldl selectStep st = st := by
  induction changes generalizing st with
  | nil => rfl
  | cons a l ih =>
    simp only [List.foldl_cons] at h ⊢
    by_cases hlt : st.lastUpdated < a.timestamp
    · have hstep : (selectStep st a).needsUpdate = true := by simp [selectStep, hlt]
      have := foldl_selectStep_needsUpdate_true l _ hstep
      rw [this] at h
      cases h
    · have hstep : selectStep st a = st := by simp [selectStep, hlt]
      rw [hstep] at h ⊢
      exact ih st h

/-! ## Claims -/

/-- The emitted returns of a bucket, by case: without a selected change each is the total on
entry plus the bucket's delta; with a selected change the delta has already been added to
`returns` and is added again. -/
theorem processBucket_emitted_returns (sqrt : ℚ → ℚ) (pairSnapshots : List Snapshot)
    (returns : Returns) (dayTimestamp : Nat) (market : MarketState) (sel : Selection)
    (v : BucketValues)
    (hsel : selectLatest returns.lastUpdated (PositionT1.market market)
      (positionChanges pairSnapshots dayTimestamp) = sel)
    (hv : bucketValues sqrt returns sel.positionT1 = v) :
    (sel.needsUpdate = false →
      (processBucket sqrt pairSnapshots returns dayTimestamp market).2.netReturn =
        returns.netReturn + v.netValueT1 - v.netValueT0 ∧
      (processBucket sqrt pairSnapshots returns dayTimestamp market).2.assetReturn =
        returns.assetReturn + v.assetReturn ∧
      (processBucket sqrt pairSnapshots returns dayTimestamp market).2.mooniswapReturn =
        returns.mooniswapReturn + v.mooniswap_return) ∧
    (sel.needsUpdate = true →
      (processBucket sqrt pairSnapshots returns dayTimestamp market).2.netReturn =
        returns.netReturn + v.netValueT1 - v.netValueT0 + v.netValueT1 - v.netValueT0 ∧
      (processBucket sqrt pairSnapshots returns dayTimestamp market).2.assetReturn =
        returns.assetReturn + v.assetReturn + v.assetReturn ∧
      (processBucket sqrt pairSnapshots returns dayTimestamp market).2.mooniswapReturn =
        returns.mooniswapReturn + v.mooniswap_return + v.mooniswap_return) := by
  subst hsel hv
  simp only [processBucket, bucketValues_lastUpdated]
  constructor <;> intro hn <;> simp [hn, emit, accumulate]

/-- C1 (code defect): on a bucket in which an ownership change is selected, the emitted
`netReturn`, `assetReturn` and `mooniswapReturn` hold the bucket's delta twice.  With the first
snapshot as `returns` and a second snapshot inside the day starting at 86400, the deltas are
400, 300 and 100; the totals on entry are 0; the emitted values are 800, 600 and 200. -/
theorem C1_change_bucket_counts_delta_twice :
    (selectLatest (initReturns sampleSnapshot0).lastUpdated (PositionT1.market sampleMarket)
        (positionChanges [sampleSnapshot0, sampleSnapshot1] 86400)).needsUpdate = true ∧
    (bucketValues sqrtQ (initReturns sampleSnapshot0) (PositionT1.change sampleSnapshot1)).netValueT1 -
        (bucketValues sqrtQ (initReturns sampleSnapshot0)
          (PositionT1.change sampleSnapshot1)).netValueT0 = fin 400 ∧
    (bucketValues sqrtQ (initReturns sampleSnapshot0)
        (PositionT1.change sampleSnapshot1)).assetReturn = fin 300 ∧
    (bucketValues sqrtQ (initReturns sampleSnapshot0)
        (PositionT1.change sampleSnapshot1)).mooniswap_return = fin 100 ∧
    (initReturns sampleSnapshot0).netReturn = fin 0 ∧
    (initReturns sampleSnapshot0).assetReturn = fin 0 ∧
    (initReturns sampleSnapshot0).mooniswapReturn = fin 0 ∧
    (processBucket sqrtQ [sampleSnapshot0, sampleSnapshot1] (initReturns sampleSnapshot0) 86400
        sampleMarket).2.netReturn = fin 800 ∧
    (processBucket sqrtQ [sampleSnapshot0, sampleSnapshot1] (initReturns sampleSnapshot0) 86400
        sampleMarket).2.assetReturn = fin 600 ∧
    (processBucket sqrtQ [sampleSnapshot0, sampleSnapshot1] (initReturns sampleSnapshot0) 86400
        sampleMarket).2.mooniswapReturn = fin 200 := by
  have hsel : selectLatest (initReturns sampleSnapshot0).lastUpdated
      (PositionT1.market sampleMarket)
      (positionChanges [sampleSnapshot0, sampleSnapshot1] 86400) =
      { lastUpdated := 86450, positionT1 := PositionT1.change sampleSnapshot1,
        needsUpdate := true } := by
    simp [selectLatest, positionChanges, selectStep, initReturns, sampleSnapshot0,
      sampleSnapshot1]
  have hv : bucketValues sqrtQ (initReturns sampleSnapshot0)
      (PositionT1.change sampleSnapshot1) =
      { t0Ownership := fin (1 / 10), t1Ownership := fin (1 / 10),
        token0_amount_t0 := fin 100, token1_amount_t0 := fin 100,
        token0_amount_t1 := fin 200, token1_amount_t1 := fin 100,
        sqrK_t0 := fin 100, token0_amount_no_fees := fin 200,
        token1_amount_no_fees := fin 50, no_fees_usd := fin 400,
        difference_fees_token0 := fin 0, difference_fees_token1 := fin 50,
        difference_fees_usd := fin 200, assetValueT0 := fin 200, assetValueT1 := fin 500,
        imp_loss_usd := fin (-100), mooniswap_return := fin 100, assetReturn := fin 300,
        netValueT0 := fin 200, netValueT1 := fin 600 } := by
    simp [bucketValues, initReturns, sampleSnapshot0, sampleSnapshot1, PositionT1.totalSupply,
      PositionT1.reserve0, PositionT1.reserve1, PositionT1.reserveUSD,
      PositionT1.token0PriceUSD, PositionT1.token1PriceUSD, sqrtQ_four]
    norm_num [sqrtQ_10000]
  refine ⟨by rw [hsel], by rw [hv]; norm_num, by rw [hv], by rw [hv], rfl, rfl, rfl, ?_, ?_, ?_⟩
  all_goals
    simp only [processBucket, hsel, bucketValues_lastUpdated, hv]
    simp [accumulate, emit, initReturns]
    norm_num

/-- C2: on a bucket in which no snapshot is selected as an ownership change (`needsUpdate`
stays false), the `returns` record after the bucket equals the record before it, in every
field. -/
theorem C2_returns_unchanged_without_change (sqrt : ℚ → ℚ) (pairSnapshots : List Snapshot)
    (returns : Returns) (dayTimestamp : Nat) (market : MarketState)
    (h : (selectLatest returns.lastUpdated (PositionT1.market market)
      (positionChanges pairSnapshots dayTimestamp)).needsUpdate = false) :
    (processBucket sqrt pairSnapshots returns dayTimestamp market).1 = returns := by
  have hsel := foldl_selectStep_eq_of_needsUpdate_false _ _ h
  simp only [processBucket]
  unfold selectLatest at h ⊢
  rw [hsel]
  simp

/-- Witness of C2: the first day of the sample history, whose only snapshot is the one
`returns` was initialised from. -/
theorem C2_returns_unchanged_without_change_witness :
    (selectLatest (initReturns sampleSnapshot0).lastUpdated (PositionT1.market sampleMarket)
      (positionChanges [sampleSnapshot0] 0)).needsUpdate = false ∧
    (processBucket sqrtQ [sampleSnapshot0] (initReturns sampleSnapshot0) 0 sampleMarket).1 =
      initReturns sampleSnapshot0 :=
  ⟨by simp [selectLatest, positionChanges, selectStep, initReturns, sampleSnapshot0],
   C2_returns_unchanged_without_change sqrtQ [sampleSnapshot0] (initReturns sampleSnapshot0) 0
    sampleMarket
    (by simp [selectLatest, positionChanges, selectStep, initReturns, sampleSnapshot0])⟩


theorem sampleReturns1_eq :
    sampleReturns1 =
      { initReturns sampleSnapshot0 with
        lastUpdated := 86450, netReturn := fin 400, assetReturn := fin 300,
        mooniswapReturn := fin 100, netChange := fin 200, assetChange := fin 150 } := by
  have hsel : selectLatest (initReturns sampleSnapshot0).lastUpdated
      (PositionT1.market sampleMarket)
      (positionChanges [sampleSnapshot0, sampleSnapshot1] 86400) =
      { lastUpdated := 86450, positionT1 := PositionT1.change sampleSnapshot1,
        needsUpdate := true } := by
    simp [selectLatest, positionChanges, selectStep, initReturns, sampleSnapshot0,
      sampleSnapshot1]
  simp only [sampleReturns1, processBucket, hsel, bucketValues_lastUpdated]
  simp [accumulate, bucketValues, initReturns, sampleSnapshot0, sampleSnapshot1,
    PositionT1.totalSupply, PositionT1.reserve0, PositionT1.reserve1, PositionT1.reserveUSD,
    PositionT1.token0PriceUSD, PositionT1.token1PriceUSD, sqrtQ_four]
  norm_num [sqrtQ_10000]

/-- C3 (counterexample): in the day starting at 172800 of the sample history, `returns` holds
the running totals `netChange = 200` and `assetChange = 150` from the ownership change of the
day before, the bucket's own percent changes are 0, and the emitted `netChange` and
`assetChange` are 0: the running totals are not part of the emitted values. -/
theorem C3_emitted_change_not_cumulative :
    sampleReturns1.netChange = fin 200 ∧ sampleReturns1.assetChange = fin 150 ∧
    (processBucket sqrtQ [sampleSnapshot0, sampleSnapshot1] sampleReturns1 172800
        sampleMarket).2.netChange ≠
      sampleReturns1.netChange +
        (((bucketValues sqrtQ sampleReturns1 (PositionT1.market sampleMarket)).netValueT1 -
            (bucketValues sqrtQ sampleReturns1 (PositionT1.market sampleMarket)).netValueT0) /
          (bucketValues sqrtQ sampleReturns1 (PositionT1.market sampleMarket)).netValueT0) *
          fin 100 ∧
    (processBucket sqrtQ [sampleSnapshot0, sampleSnapshot1] sampleReturns1 172800
        sampleMarket).2.assetChange ≠
      sampleReturns1.assetChange +
        ((bucketValues sqrtQ sampleReturns1 (PositionT1.market sampleMarket)).assetReturn /
          (bucketValues sqrtQ sampleReturns1 (PositionT1.market sampleMarket)).assetValueT0) *
          fin 100 := by
  have hsel : selectLatest sampleReturns1.lastUpdated (PositionT1.market sampleMarket)
      (positionChanges [sampleSnapshot0, sampleSnapshot1] 172800) =
      { lastUpdated := 86450, positionT1 := PositionT1.market sampleMarket,
        needsUpdate := false } := by
    rw [sampleReturns1_eq]
    simp [selectLatest, positionChanges, selectStep, initReturns, sampleSnapshot0,
      sampleSnapshot1]
  have hv : bucketValues sqrtQ sampleReturns1 (PositionT1.market sampleMarket) =
      { t0Ownership := fin (1 / 10), t1Ownership := fin (1 / 10),
        token0_amount_t0 := fin 100, token1_amount_t0 := fin 100,
        token0_amount_t1 := fin 100, token1_amount_t1 := fin 100,
        sqrK_t0 := fin 100, token0_amount_no_fees := fin 100,
        token1_amount_no_fees := fin 100, no_fees_usd := fin 200,
        difference_fees_token0 := fin 0, difference_fees_token1 := fin 0,
        difference_fees_usd := fin 0, assetValueT0 := fin 200, assetValueT1 := fin 200,
        imp_loss_usd := fin 0, mooniswap_return := fin 0, assetReturn := fin 0,
        netValueT0 := fin 200, netValueT1 := fin 200 } := by
    rw [sampleReturns1_eq]
    simp [bucketValues, initReturns, sampleSnapshot0, sampleMarket, PositionT1.totalSupply,
      PositionT1.reserve0, PositionT1.reserve1, PositionT1.reserveUSD,
      PositionT1.token0PriceUSD, PositionT1.token1PriceUSD, sqrtQ_one]
    norm_num [sqrtQ_10000]
  have h1 : sampleReturns1.netChange = fin 200 := by rw [sampleReturns1_eq]
  have h2 : sampleReturns1.assetChange = fin 150 := by rw [sampleReturns1_eq]
  refine ⟨h1, h2, ?_, ?_⟩
  · simp only [processBucket, hsel, bucketValues_lastUpdated, hv]
    simp [emit, h1]
  · simp only [processBucket, hsel, bucketValues_lastUpdated, hv]
    simp [emit, h2]

/-- C3 (amended): for every bucket, the emitted `netChange` is this bucket's
`((netValueT1 - netValueT0) / netValueT0) * 100` alone and the emitted `assetChange` is this
bucket's `(assetReturn / assetValueT0) * 100` alone; the running totals `returns.netChange` and
`returns.assetChange` are advanced by these percent changes on a bucket with a selected
ownership change and are unchanged on every other bucket. -/
theorem C3_emitted_change_is_per_bucket (sqrt : ℚ → ℚ) (pairSnapshots : List Snapshot)
    (returns : Returns) (dayTimestamp : Nat) (market : MarketState) :
    (processBucket sqrt pairSnapshots returns dayTimestamp market).2.netChange =
      (((bucketValues sqrt returns (selectLatest returns.lastUpdated (PositionT1.market market)
            (positionChanges pairSnapshots dayTimestamp)).positionT1).netValueT1 -
          (bucketValues sqrt returns (selectLatest returns.lastUpdated (PositionT1.market market)
            (positionChanges pairSnapshots dayTimestamp)).positionT1).netValueT0) /
        (bucketValues sqrt returns (selectLatest returns.lastUpdated (PositionT1.market market)
            (positionChanges pairSnapshots dayTimestamp)).positionT1).netValueT0) * fin 100 ∧
    (processBucket sqrt pairSnapshots returns dayTimestamp market).2.assetChange =
      ((bucketValues sqrt returns (selectLatest returns.lastUpdated (PositionT1.market market)
            (positionChanges pairSnapshots dayTimestamp)).positionT1).assetReturn /
        (bucketValues sqrt returns (selectLatest returns.lastUpdated (PositionT1.market market)
            (positionChanges pairSnapshots dayTimestamp)).positionT1).assetValueT0) * fin 100 ∧
    (processBucket sqrt pairSnapshots returns dayTimestamp market).1.netChange =
      (if (selectLatest returns.lastUpdated (PositionT1.market market)
            (positionChanges pairSnapshots dayTimestamp)).needsUpdate = true then
        returns.netChange +
          (processBucket sqrt pairSnapshots returns dayTimestamp market).2.netChange
      else returns.netChange) ∧
    (processBucket sqrt pairSnapshots returns dayTimestamp market).1.assetChange =
      (if (selectLatest returns.lastUpdated (PositionT1.market market)
            (positionChanges pairSnapshots dayTimestamp)).needsUpdate = true then
        returns.assetChange +
          (processBucket sqrt pairSnapshots returns dayTimestamp market).2.assetChange
      else returns.assetChange) := by
  simp only [processBucket, bucketValues_lastUpdated]
  cases hn : (selectLatest returns.lastUpdated (PositionT1.market market)
      (positionChanges pairSnapshots dayTimestamp)).needsUpdate <;>
    simp [emit, accumulate]


theorem mem_positionChanges (pairSnapshots : List Snapshot) (dayTimestamp : Nat) (s : Snapshot) :
    s ∈ positionChanges pairSnapshots dayTimestamp ↔
      s ∈ pairSnapshots ∧ dayTimestamp < s.timestamp ∧ s.timestamp < dayTimestamp + 86400 := by
  simp only [positionChanges, List.mem_filter, Bool.and_eq_true, decide_eq_true_eq, gt_iff_lt]
  tauto

/-- The loop of lines 302-311 from the state `st`: the final `lastUpdated` bounds every
timestamp of the list, and the final state is either `st`, when no timestamp exceeds
`st.lastUpdated`, or the state written for a change of the list. -/
theorem foldl_selectStep_spec (changes : List Snapshot) (st : Selection) :
    (∀ a ∈ changes, a.timestamp ≤ (changes.foldl selectStep st).lastUpdated) ∧
    st.lastUpdated ≤ (changes.foldl selectStep st).lastUpdated ∧
    ((changes.foldl selectStep st = st ∧ ∀ a ∈ changes, a.timestamp ≤ st.lastUpdated) ∨
      ∃ a ∈ changes, st.lastUpdated < a.timestamp ∧
        changes.foldl selectStep st =
          { lastUpdated := a.timestamp, positionT1 := PositionT1.change a,
            needsUpdate := true }) := by
  induction changes generalizing st with
  | nil => simp
  | cons a l ih =>
    simp only [List.foldl_cons, List.mem_cons, forall_eq_or_imp, exists_eq_or_imp]
    obtain ⟨hall, hle, hcase⟩ := ih (selectStep st a)
    by_cases hlt : st.lastUpdated < a.timestamp
    · have hstep : selectStep st a =
          { lastUpdated := a.timestamp, positionT1 := PositionT1.change a,
            needsUpdate := true } := by simp [selectStep, hlt]
      rw [hstep] at hall hle hcase ⊢
      simp only at hle
      refine ⟨⟨hle, hall⟩, by omega, Or.inr ?_⟩
      rcases hcase with ⟨heq, _⟩ | ⟨b, hb, hlt', heq⟩
      · exact Or.inl ⟨hlt, heq⟩
      · exact Or.inr ⟨b, hb, by simp only at hlt'; omega, heq⟩
    · have hstep : selectStep st a = st := by simp [selectStep, hlt]
      rw [hstep] at hall hle hcase ⊢
      refine ⟨⟨by omega, hall⟩, hle, ?_⟩
      rcases hcase with ⟨heq, hbound⟩ | ⟨b, hb, hlt', heq⟩
      · exact Or.inl ⟨heq, by omega, hbound⟩
      · exact Or.inr (Or.inr ⟨b, hb, hlt', heq⟩)

/-- C4 (counterexample): in the first day of the sample history the only snapshot lies
strictly inside the day, and it is the snapshot `returns.lastUpdated` was initialised from; the
loop does not select it: `needsUpdate` stays false and `positionT1` stays the market data. -/
theorem C4_first_snapshot_not_selected :
    (∃ s ∈ [sampleSnapshot0], 0 < s.timestamp ∧ s.timestamp < 0 + 86400) ∧
    (selectLatest (initReturns sampleSnapshot0).lastUpdated (PositionT1.market sampleMarket)
      (positionChanges [sampleSnapshot0] 0)).needsUpdate = false ∧
    (selectLatest (initReturns sampleSnapshot0).lastUpdated (PositionT1.market sampleMarket)
      (positionChanges [sampleSnapshot0] 0)).positionT1 = PositionT1.market sampleMarket := by
  refine ⟨⟨sampleSnapshot0, by simp, by simp [sampleSnapshot0], by simp [sampleSnapshot0]⟩, ?_, ?_⟩ <;>
    simp [selectLatest, positionChanges, selectStep, initReturns, sampleSnapshot0]

/-- C4 (amended): for the day bucket starting at `d`, entered with `lastUpdated`:
if a snapshot of the pair lies strictly inside `(d, d + 86400)` with a timestamp greater than
`lastUpdated`, then `needsUpdate` is true and `positionT1` is a snapshot of the pair strictly
inside the day whose timestamp is the greatest of the day, and `lastUpdated` becomes that
timestamp; a snapshot bound to `positionT1` always lies strictly inside the day, so one at `d`
or `d + 86400` is never selected; and if no snapshot strictly inside the day has a timestamp
greater than `lastUpdated`, then `positionT1` stays the market data, `needsUpdate` stays false
and `lastUpdated` is unchanged. -/
theorem C4_latest_change_after_lastUpdated_wins (pairSnapshots : List Snapshot)
    (lastUpdated : Nat) (market : MarketState) (d : Nat) :
    ((∃ s ∈ pairSnapshots, d < s.timestamp ∧ s.timestamp < d + 86400 ∧
        lastUpdated < s.timestamp) →
      (selectLatest lastUpdated (PositionT1.market market)
        (positionChanges pairSnapshots d)).needsUpdate = true ∧
      ∃ s ∈ pairSnapshots,
        (selectLatest lastUpdated (PositionT1.market market)
          (positionChanges pairSnapshots d)).positionT1 = PositionT1.change s ∧
        (selectLatest lastUpdated (PositionT1.market market)
          (positionChanges pairSnapshots d)).lastUpdated = s.timestamp ∧
        lastUpdated < s.timestamp ∧ d < s.timestamp ∧ s.timestamp < d + 86400 ∧
        ∀ s' ∈ pairSnapshots, d < s'.timestamp → s'.timestamp < d + 86400 →
          s'.timestamp ≤ s.timestamp) ∧
    (∀ s, (selectLatest lastUpdated (PositionT1.market market)
        (positionChanges pairSnapshots d)).positionT1 = PositionT1.change s →
      s ∈ pairSnapshots ∧ d < s.timestamp ∧ s.timestamp < d + 86400) ∧
    ((¬ ∃ s ∈ pairSnapshots, d < s.timestamp ∧ s.timestamp < d + 86400 ∧
        lastUpdated < s.timestamp) →
      (selectLatest lastUpdated (PositionT1.market market)
        (positionChanges pairSnapshots d)).needsUpdate = false ∧
      (selectLatest lastUpdated (PositionT1.market market)
        (positionChanges pairSnapshots d)).positionT1 = PositionT1.market market ∧
      (selectLatest lastUpdated (PositionT1.market market)
        (positionChanges pairSnapshots d)).lastUpdated = lastUpdated) := by
  obtain ⟨hall, _, hcase⟩ := foldl_selectStep_spec (positionChanges pairSnapshots d)
    { lastUpdated := lastUpdated, positionT1 := PositionT1.market market, needsUpdate := false }
  unfold selectLatest
  refine ⟨?_, ?_, ?_⟩
  · rintro ⟨s, hs, hd, hc, hlt⟩
    rcases hcase with ⟨_, hbound⟩ | ⟨a, ha, hlt', heq⟩
    · have := hbound s ((mem_positionChanges _ _ _).2 ⟨hs, hd, hc⟩)
      simp only at this
      omega
    · rw [heq] at hall ⊢
      obtain ⟨ha1, ha2, ha3⟩ := (mem_positionChanges _ _ _).1 ha
      refine ⟨rfl, a, ha1, rfl, rfl, hlt', ha2, ha3, ?_⟩
      intro s' hs' h1 h2
      exact hall s' ((mem_positionChanges _ _ _).2 ⟨hs', h1, h2⟩)
  · intro s hs
    rcases hcase with ⟨heq, _⟩ | ⟨a, ha, _, heq⟩
    · rw [heq] at hs
      cases hs
    · rw [heq] at hs
      simp only [PositionT1.change.injEq] at hs
      subst hs
      exact (mem_positionChanges _ _ _).1 ha
  · intro hno
    rcases hcase with ⟨heq, _⟩ | ⟨a, ha, hlt', heq⟩
    · rw [heq]
      exact ⟨rfl, rfl, rfl⟩
    · obtain ⟨ha1, ha2, ha3⟩ := (mem_positionChanges _ _ _).1 ha
      exact absurd ⟨a, ha1, ha2, ha3, hlt'⟩ hno

/-- Witness of C4 (amended): the day starting at 86400 of the sample history, entered with the
first snapshot's timestamp, selects the second snapshot. -/
theorem C4_latest_change_after_lastUpdated_wins_witness :
    (∃ s ∈ [sampleSnapshot0, sampleSnapshot1], 86400 < s.timestamp ∧
        s.timestamp < 86400 + 86400 ∧ 100 < s.timestamp) ∧
    (selectLatest 100 (PositionT1.market sampleMarket)
      (positionChanges [sampleSnapshot0, sampleSnapshot1] 86400)).needsUpdate = true :=
  have h : ∃ s ∈ [sampleSnapshot0, sampleSnapshot1], 86400 < s.timestamp ∧
      s.timestamp < 86400 + 86400 ∧ 100 < s.timestamp :=
    ⟨sampleSnapshot1, by simp, by simp [sampleSnapshot1], by simp [sampleSnapshot1],
      by simp [sampleSnapshot1]⟩
  ⟨h, ((C4_latest_change_after_lastUpdated_wins [sampleSnapshot0, sampleSnapshot1] 100
    sampleMarket 86400).1 h).1⟩


/-! ## The day buckets -/

/-- The loop of lines 246-249 in closed form: it appends one day start per day index from
`dayIndex` to `currentDayIndex`. -/
theorem dayTimestampsFrom_eq (currentDayIndex : Nat) :
    ∀ (n dayIndex : Nat) (acc : List Nat), currentDayIndex + 1 - dayIndex = n →
      dayTimestampsFrom currentDayIndex dayIndex acc =
        acc ++ (List.range n).map fun i => (dayIndex + i) * 86400
  | 0, dayIndex, acc, h => by
    have hgt : ¬ dayIndex ≤ currentDayIndex := by omega
    rw [dayTimestampsFrom, if_neg hgt]
    simp
  | n + 1, dayIndex, acc, h => by
    have hle : dayIndex ≤ currentDayIndex := by omega
    have hmap : (List.range n).map (fun i => (dayIndex + 1 + i) * 86400) =
        (List.range n).map ((fun i => (dayIndex + i) * 86400) ∘ Nat.succ) := by
      apply List.map_congr_left
      intro i _
      show (dayIndex + 1 + i) * 86400 = (dayIndex + Nat.succ i) * 86400
      rw [Nat.succ_eq_add_one, Nat.add_assoc, Nat.add_comm 1 i]
    rw [dayTimestampsFrom, if_pos hle,
      dayTimestampsFrom_eq currentDayIndex n (dayIndex + 1) _ (by omega),
      List.range_succ_eq_map, hmap]
    simp only [List.map_cons, List.map_map, List.append_assoc, List.singleton_append,
      Nat.add_zero]

theorem dayTimestamps_eq (dayIndex now : Nat) :
    dayTimestamps dayIndex now =
      (List.range (now / 86400 + 1 - dayIndex)).map fun i => (dayIndex + i) * 86400 := by
  rw [dayTimestamps, dayTimestampsFrom_eq (now / 86400) _ dayIndex [] rfl]
  simp

/-- The loop of lines 916-919 in closed form: it appends `startTime`, `startTime + 84600`, ...
while the value is below `now`. -/
theorem chartTimestampsFrom_eq (now : Nat) :
    ∀ (n startTime : Nat) (acc : List Nat), (now - startTime + 84599) / 84600 = n →
      chartTimestampsFrom now startTime acc =
        acc ++ (List.range n).map fun i => startTime + i * 84600
  | 0, startTime, acc, h => by
    have hge : ¬ startTime < now := by omega
    rw [chartTimestampsFrom, if_neg hge]
    simp
  | n + 1, startTime, acc, h => by
    have hlt : startTime < now := by omega
    have hmap : (List.range n).map (fun i => startTime + 84600 + i * 84600) =
        (List.range n).map ((fun i => startTime + i * 84600) ∘ Nat.succ) := by
      apply List.map_congr_left
      intro i _
      show startTime + 84600 + i * 84600 = startTime + Nat.succ i * 84600
      rw [Nat.succ_mul, Nat.add_assoc, Nat.add_comm 84600]
    rw [chartTimestampsFrom, if_pos hlt,
      chartTimestampsFrom_eq now n (startTime + 84600) _ (by omega),
      List.range_succ_eq_map, hmap]
    simp only [List.map_cons, List.map_map, List.append_assoc, List.singleton_append,
      Nat.zero_mul, Nat.add_zero]

theorem chartTimestamps_eq (startDateTimestamp firstTimestamp now : Nat) :
    chartTimestamps startDateTimestamp firstTimestamp now =
      (List.range ((now - chartStartTime startDateTimestamp firstTimestamp + 84599) / 84600)).map
        fun i => chartStartTime startDateTimestamp firstTimestamp + i * 84600 := by
  rw [chartTimestamps, chartTimestampsFrom_eq now _ _ [] rfl]
  simp

/-- C5 (code defect): with the selected window starting at 864000 (day 10) and the first
snapshot at 1728000 (day 20), the earlier of the two is 864000, and both hooks start at
1728000: the first day timestamp of `useReturnsPerPairHistory` and the first timestamp of
`useUserLiquidityChart` are the later of the two values. -/
theorem C5_window_starts_at_later_value :
    min 864000 1728000 / 86400 * 86400 = 864000 ∧
    (dayTimestamps (startDayIndex 864000 1728000) 1900000).head? = some 1728000 ∧
    min 1728000 864000 = 864000 ∧
    (chartTimestamps 864000 1728000 1900000).head? = some 1728000 := by
  refine ⟨by norm_num, ?_, by norm_num, ?_⟩
  · rw [dayTimestamps_eq]
    have h : startDayIndex 864000 1728000 = 20 := by
      simp [startDayIndex]
    rw [h]
    have h2 : 1900000 / 86400 + 1 - 20 = 1 + 1 := by norm_num
    rw [h2, List.range_succ_eq_map]
    simp
  · rw [chartTimestamps_eq]
    have h : chartStartTime 864000 1728000 = 1728000 := by
      simp [chartStartTime]
    rw [h]
    have h2 : (1900000 - 1728000 + 84599) / 84600 = 2 + 1 := by norm_num
    rw [h2, List.range_succ_eq_map]
    simp

/-- C6: for a start day index `d0` and a current time `now` with `d0 ≤ now / 86400`, the
`dayTimestamps` list is `[d0 * 86400, (d0 + 1) * 86400, ..., (now / 86400) * 86400]`: it has
`now / 86400 - d0 + 1` elements, the element at position `i` is `(d0 + i) * 86400`, every
element is a multiple of 86400, consecutive elements differ by exactly 86400, the list is
strictly increasing, its first element is `d0 * 86400`, and its last element is the start of
the day containing `now`. -/
theorem C6_dayTimestamps_sequence (d0 now : Nat) (h : d0 ≤ now / 86400) :
    dayTimestamps d0 now =
      (List.range (now / 86400 - d0 + 1)).map (fun i => (d0 + i) * 86400) ∧
    (dayTimestamps d0 now).length = now / 86400 - d0 + 1 ∧
    (∀ t ∈ dayTimestamps d0 now, 86400 ∣ t) ∧
    (∀ i x, (dayTimestamps d0 now).get? i = some x →
      i + 1 < (dayTimestamps d0 now).length →
      (dayTimestamps d0 now).get? (i + 1) = some (x + 86400)) ∧
    (dayTimestamps d0 now).Pairwise (fun a b => a < b) ∧
    (dayTimestamps d0 now).head? = some (d0 * 86400) ∧
    (dayTimestamps d0 now).getLast? = some (now / 86400 * 86400) ∧
    now / 86400 * 86400 ≤ now ∧ now < now / 86400 * 86400 + 86400 := by
  have hn : now / 86400 + 1 - d0 = now / 86400 - d0 + 1 := by omega
  have heq : dayTimestamps d0 now =
      (List.range (now / 86400 - d0 + 1)).map (fun i => (d0 + i) * 86400) := by
    rw [dayTimestamps_eq, hn]
  refine ⟨heq, ?_, ?_, ?_, ?_, ?_, ?_, ?_, ?_⟩
  · rw [heq]; simp
  · rw [heq]
    intro t ht
    obtain ⟨i, _, rfl⟩ := List.mem_map.1 ht
    exact Dvd.intro_left _ rfl
  · rw [heq]
    intro i x hx hi
    simp only [List.length_map, List.length_range] at hi
    have hi0 : i < now / 86400 - d0 + 1 := by omega
    simp only [List.get?_eq_getElem?, List.getElem?_map, List.getElem?_range hi0,
      List.getElem?_range hi, Option.map_some', Option.some.injEq] at hx ⊢
    omega
  · rw [heq, List.pairwise_map]
    refine (List.pairwise_lt_range _).imp ?_
    intro a b hab
    omega
  · rw [heq, List.range_succ_eq_map]
    simp
  · rw [heq, List.range_succ]
    simp only [List.map_append, List.map_cons, List.map_nil]
    rw [List.getLast?_concat]
    congr 2
    omega
  · exact Nat.div_mul_le_self now 86400
  · have := Nat.lt_div_mul_add (a := now) (b := 86400) (by norm_num)
    omega

/-- Witness of C6: start day index 3 and `now = 5 * 86400 + 7` give the three day starts
259200, 345600 and 432000. -/
theorem C6_dayTimestamps_sequence_witness :
    3 ≤ 432007 / 86400 ∧ dayTimestamps 3 432007 = [259200, 345600, 432000] :=
  ⟨by norm_num, by
    rw [(C6_dayTimestamps_sequence 3 432007 (by norm_num)).1]
    decide⟩


/-! ## Empty and missing data -/

/-- C7 (code defect): on an empty history `getReturns` and the `fetchData` of
`useReturnsPerPairHistory` and of `useUserLiquidityHistory` throw a `TypeError` (they read a
property of `history[history.length - 1]`, respectively `sortedPositions[0]`, which is
`undefined`); only the `fetchHistory` of `useUserLiquidityChart`, which tests
`results.length === 0`, returns the empty series. -/
theorem C7_empty_history_throws (sqrt : ℚ → ℚ)
    (getShareValueOverTime : List Nat → List ShareValue)
    (queryPairDayDatas : List String → Nat → List PairDayData)
    (queryPositions : List Nat → List (String × List PairInfo))
    (ETH pairId : String) (pair currentPairData : PairData) (ethPrice currentETHPrice : ℚ)
    (startDateTimestamp now : Nat) :
    getReturns ETH [] pair ethPrice =
      .error "TypeError: history[history.length - 1] is undefined" ∧
    useReturnsPerPairHistory.fetchData sqrt getShareValueOverTime startDateTimestamp now []
      (pairSnapshotsOf [] pairId) currentPairData currentETHPrice =
      .error "TypeError: sortedPositions[0] is undefined" ∧
    useUserLiquidityHistory.fetchData queryPairDayDatas startDateTimestamp now [] =
      .error "TypeError: sortedPositions[0] is undefined" ∧
    useUserLiquidityChart.fetchHistory queryPositions startDateTimestamp now (some []) =
      .ok [] :=
  ⟨rfl, rfl, rfl, rfl⟩

theorem dailyUSDStep_some (ownershipPerPair : OwnershipMap) (totalUSD : JsNum)
    (d : PairDayData) : ∃ v, dailyUSDStep ownershipPerPair totalUSD (some d) = .ok v := by
  simp only [dailyUSDStep]
  cases hget : ownershipPerPair.get d.pairAddress <;> exact ⟨_, rfl⟩

theorem foldlM_dailyUSDStep_none (ownershipPerPair : OwnershipMap)
    (datas : List (Option PairDayData)) (h : none ∈ datas) (totalUSD : JsNum) :
    datas.foldlM (dailyUSDStep ownershipPerPair) totalUSD =
      .error "TypeError: dayData is undefined" := by
  induction datas generalizing totalUSD with
  | nil => cases h
  | cons x l ih =>
    rw [List.foldlM_cons]
    cases x with
    | none => rfl
    | some d =>
      obtain ⟨v, hv⟩ := dailyUSDStep_some ownershipPerPair totalUSD d
      rw [hv]
      have hl : none ∈ l := by
        rcases List.mem_cons.1 h with h | h
        · cases h
        · exact h
      exact ih hl v

theorem mostRecentDayData_eq_none (pairDayDatas : List PairDayData) (dayTimestamp : Nat)
    (pairAddress : String) (h : ∀ d ∈ pairDayDatas, d.pairAddress ≠ pairAddress) :
    mostRecentDayData pairDayDatas dayTimestamp pairAddress = none := by
  have hf : pairDayDatas.filter (fun dayData => decide (dayData.pairAddress = pairAddress)) =
      [] := by
    rw [List.filter_eq_nil_iff]
    intro d hd
    simpa using h d hd
  simp only [mostRecentDayData, hf]

/-- C8 (code defect): when a pair tracked in `ownershipPerPair` has no record at all in
`pairDayDatas`, the day's valuation does not complete: `mostRecent` is `undefined` for that
pair and the `reduce` throws a `TypeError` on reading `dayData.pairAddress`. -/
theorem C8_missing_day_data_throws (ownershipPerPair : OwnershipMap)
    (pairDayDatas : List PairDayData) (dayTimestamp : Nat) (pairAddress : String)
    (o : Ownership) (hmem : (pairAddress, o) ∈ ownershipPerPair)
    (hnone : ∀ d ∈ pairDayDatas, d.pairAddress ≠ pairAddress) :
    dayValueUSD ownershipPerPair pairDayDatas dayTimestamp =
      .error "TypeError: dayData is undefined" := by
  unfold dayValueUSD dailyUSD
  apply foldlM_dailyUSDStep_none
  unfold relavantDayDatas
  rw [List.map_map, List.mem_map]
  exact ⟨(pairAddress, o), hmem, mostRecentDayData_eq_none _ _ _ hnone⟩

/-- Witness of C8: the ownership map after the first day of the sample history tracks the
sample pair; with no day data at all its valuation throws. -/
theorem C8_missing_day_data_throws_witness :
    ownershipAfterDay [] [sampleSnapshot0] 0 =
      [("0xpair", { lpTokenBalance := 100, timestamp := 100 })] ∧
    dayValueUSD (ownershipAfterDay [] [sampleSnapshot0] 0) [] 0 =
      .error "TypeError: dayData is undefined" :=
  have h : ownershipAfterDay [] [sampleSnapshot0] 0 =
      [("0xpair", { lpTokenBalance := 100, timestamp := 100 })] := by
    simp [ownershipAfterDay, positionChanges, updateOwnership, OwnershipMap.get,
      OwnershipMap.set, sampleSnapshot0, samplePair]
  ⟨h, C8_missing_day_data_throws (ownershipAfterDay [] [sampleSnapshot0] 0) [] 0 "0xpair"
    { lpTokenBalance := 100, timestamp := 100 } (by rw [h]; simp) (by simp)⟩


/-! ## The chart timestamps and the emitted changes -/

/-- C13 (code defect): with the window start 864000, the first snapshot at 1728000 and the
current time 1900000, the `timestamps` of `useUserLiquidityChart` are 1728000, 1812600 and
1897200: consecutive elements differ by 84600 seconds, not by 86400. -/
theorem C13_chart_timestamps_step_84600 :
    chartTimestamps 864000 1728000 1900000 = [1728000, 1812600, 1897200] ∧
    1812600 = 1728000 + 84600 ∧ 1897200 = 1812600 + 84600 ∧
    1812600 ≠ 1728000 + 86400 := by
  refine ⟨?_, by norm_num, by norm_num, by norm_num⟩
  rw [chartTimestamps_eq]
  have h : chartStartTime 864000 1728000 = 1728000 := by simp [chartStartTime]
  rw [h]
  have h2 : (1900000 - 1728000 + 84599) / 84600 = 3 := by norm_num
  rw [h2]
  decide

/-- C14: for every bucket emitted by `useReturnsPerPairHistory`, the emitted
`mooniswapChange` is the emitted `netChange` minus the emitted `assetChange`. -/
theorem C14_pool_change_is_net_minus_asset (sqrt : ℚ → ℚ) (pairSnapshots : List Snapshot)
    (returns : Returns) (dayTimestamp : Nat) (market : MarketState) :
    (processBucket sqrt pairSnapshots returns dayTimestamp market).2.mooniswapChange =
      (processBucket sqrt pairSnapshots returns dayTimestamp market).2.netChange -
        (processBucket sqrt pairSnapshots returns dayTimestamp market).2.assetChange := by
  simp only [processBucket, emit]

/-! ## The T0 state over the whole loop -/

theorem processBucket_t0State (sqrt : ℚ → ℚ) (pairSnapshots : List Snapshot)
    (returns : Returns) (dayTimestamp : Nat) (market : MarketState) :
    (processBucket sqrt pairSnapshots returns dayTimestamp market).1.t0State =
      returns.t0State := by
  simp only [processBucket]
  split <;> rfl

theorem bucketLoop_t0State (sqrt : ℚ → ℚ) (pairSnapshots : List Snapshot)
    (shareValues : List ShareValue) (currentPairData : PairData) (currentETHPrice : ℚ)
    (length : Nat) (days : List Nat) :
    ∀ (index : Nat) (returns : Returns) (acc : List BucketResult)
      (out : Returns × List BucketResult),
      bucketLoop sqrt pairSnapshots shareValues currentPairData currentETHPrice length index
        days returns acc = .ok out → out.1.t0State = returns.t0State := by
  induction days with
  | nil =>
    intro index returns acc out h
    simp only [bucketLoop, Except.ok.injEq] at h
    rw [← h]
  | cons d rest ih =>
    intro index returns acc out h
    rw [bucketLoop] at h
    cases hsv : shareValues.get? index with
    | none =>
      rw [hsv] at h
      cases h
    | some shareValue =>
      rw [hsv] at h
      rw [ih _ _ _ _ h, processBucket_t0State]

theorem sameButBalance_timestamp {a b : Snapshot} (h : sameButBalance a b) :
    a.timestamp = b.timestamp := by
  have := congrArg Snapshot.timestamp h
  simpa using this

theorem sameButBalance_sameView {a b : Snapshot} (h : sameButBalance a b) :
    sameView (PositionT1.change a) (PositionT1.change b) := by
  unfold sameButBalance at h
  simp only [Snapshot.mk.injEq] at h
  obtain ⟨_, _, _, h1, h2, h3, h4, h5, h6⟩ := h
  exact ⟨h1, h2, h3, h4, h5, h6, rfl⟩

theorem positionChanges_sameButBalance {l l' : List Snapshot}
    (h : List.Forall₂ sameButBalance l l') (d : Nat) :
    List.Forall₂ sameButBalance (positionChanges l d) (positionChanges l' d) := by
  induction h with
  | nil => exact List.Forall₂.nil
  | cons hab _ ih =>
    simp only [positionChanges, List.filter_cons, sameButBalance_timestamp hab] at ih ⊢
    split
    · exact List.Forall₂.cons hab ih
    · exact ih

theorem foldl_selectStep_sameButBalance {l l' : List Snapshot}
    (h : List.Forall₂ sameButBalance l l') :
    ∀ st st' : Selection, st.lastUpdated = st'.lastUpdated →
      st.needsUpdate = st'.needsUpdate → sameView st.positionT1 st'.positionT1 →
      (l.foldl selectStep st).lastUpdated = (l'.foldl selectStep st').lastUpdated ∧
      (l.foldl selectStep st).needsUpdate = (l'.foldl selectStep st').needsUpdate ∧
      sameView (l.foldl selectStep st).positionT1 (l'.foldl selectStep st').positionT1 := by
  induction h with
  | nil => intro st st' h1 h2 h3; exact ⟨h1, h2, h3⟩
  | cons hab _ ih =>
    intro st st' h1 h2 h3
    simp only [List.foldl_cons]
    apply ih
    · simp only [selectStep, h1, sameButBalance_timestamp hab]
      split <;> simp [h1]
    · simp only [selectStep, h1, sameButBalance_timestamp hab]
      split <;> simp [h2]
    · simp only [selectStep, h1, sameButBalance_timestamp hab]
      split
      · exact sameButBalance_sameView hab
      · exact h3

theorem bucketValues_sameView (sqrt : ℚ → ℚ) (returns : Returns) {p q : PositionT1}
    (h : sameView p q) : bucketValues sqrt returns p = bucketValues sqrt returns q := by
  obtain ⟨h1, h2, h3, h4, h5, h6, _⟩ := h
  simp only [bucketValues, h1, h2, h3, h4, h5, h6]

theorem processBucket_sameButBalance (sqrt : ℚ → ℚ) {l l' : List Snapshot}
    (h : List.Forall₂ sameButBalance l l') (returns : Returns) (dayTimestamp : Nat)
    (market : MarketState) :
    processBucket sqrt l returns dayTimestamp market =
      processBucket sqrt l' returns dayTimestamp market := by
  obtain ⟨h1, h2, h3⟩ := foldl_selectStep_sameButBalance
    (positionChanges_sameButBalance h dayTimestamp)
    { lastUpdated := returns.lastUpdated, positionT1 := PositionT1.market market,
      needsUpdate := false }
    { lastUpdated := returns.lastUpdated, positionT1 := PositionT1.market market,
      needsUpdate := false } rfl rfl ⟨rfl, rfl, rfl, rfl, rfl, rfl, rfl⟩
  have hv := fun r => bucketValues_sameView sqrt r h3
  have hsp := h3.2.2.2.2.2.2
  unfold selectLatest at *
  simp only [processBucket, selectLatest, h1, h2, hv, emit, hsp]

theorem bucketLoop_sameButBalance (sqrt : ℚ → ℚ) {l l' : List Snapshot}
    (h : List.Forall₂ sameButBalance l l') (shareValues : List ShareValue)
    (currentPairData : PairData) (currentETHPrice : ℚ) (length : Nat) (days : List Nat) :
    ∀ (index : Nat) (returns : Returns) (acc : List BucketResult),
      bucketLoop sqrt l shareValues currentPairData currentETHPrice length index days
          returns acc =
        bucketLoop sqrt l' shareValues currentPairData currentETHPrice length index days
          returns acc := by
  induction days with
  | nil => intro index returns acc; simp only [bucketLoop]
  | cons d rest ih =>
    intro index returns acc
    rw [bucketLoop, bucketLoop]
    cases hsv : shareValues.get? index with
    | none => rfl
    | some shareValue =>
      simp only [processBucket_sameButBalance sqrt h, ih]

theorem orderedInsert_sameButBalance {a a' : Snapshot} (ha : sameButBalance a a')
    {l l' : List Snapshot} (h : List.Forall₂ sameButBalance l l') :
    List.Forall₂ sameButBalance
      (List.orderedInsert (fun a b : Snapshot => a.timestamp ≤ b.timestamp) a l)
      (List.orderedInsert (fun a b : Snapshot => a.timestamp ≤ b.timestamp) a' l') := by
  induction h with
  | nil => exact List.Forall₂.cons ha List.Forall₂.nil
  | cons hbc hrest ih =>
    simp only [List.orderedInsert, sameButBalance_timestamp ha, sameButBalance_timestamp hbc]
    split
    · exact List.Forall₂.cons ha (List.Forall₂.cons hbc hrest)
    · exact List.Forall₂.cons hbc ih

theorem sortedPositions_sameButBalance {l l' : List Snapshot}
    (h : List.Forall₂ sameButBalance l l') :
    List.Forall₂ sameButBalance (sortedPositions l) (sortedPositions l') := by
  induction h with
  | nil => exact List.Forall₂.nil
  | cons hab _ ih =>
    simp only [sortedPositions, List.insertionSort] at ih ⊢
    exact orderedInsert_sameButBalance hab ih

/-- C15: the T0 comparison state never advances.  Over every run of the bucket loop, from any
position and with or without selected ownership changes, the fields `liquidityTokenBalance`,
`totalSupply`, `reserve0`, `reserve1`, `reserveUSD`, `token0PriceUSD` and `token1PriceUSD` of
`returns` keep their values; with `returns` initialised from `pairSnapshots[0]`, every
bucket's `t0Ownership`, T0 token amounts, `assetValueT0` and `netValueT0` are those of that
snapshot; and the result of `fetchData` is the same for two histories whose snapshots differ
only in the `liquidityTokenBalance` of snapshots other than `pairSnapshots[0]`. -/
theorem C15_t0_state_never_advances (sqrt : ℚ → ℚ) :
    (∀ (pairSnapshots : List Snapshot) (shareValues : List ShareValue)
      (currentPairData : PairData) (currentETHPrice : ℚ) (length index : Nat)
      (days : List Nat) (returns : Returns) (acc : List BucketResult)
      (out : Returns × List BucketResult),
      bucketLoop sqrt pairSnapshots shareValues currentPairData currentETHPrice length index
        days returns acc = .ok out → out.1.t0State = returns.t0State) ∧
    (∀ (snapshot0 : Snapshot) (returns : Returns) (positionT1 : PositionT1),
      returns.t0State = (initReturns snapshot0).t0State →
      (bucketValues sqrt returns positionT1).t0Ownership =
        fin snapshot0.liquidityTokenBalance / fin snapshot0.liquidityTokenTotalSupply ∧
      (bucketValues sqrt returns positionT1).token0_amount_t0 =
        fin snapshot0.liquidityTokenBalance / fin snapshot0.liquidityTokenTotalSupply *
          fin snapshot0.reserve0 ∧
      (bucketValues sqrt returns positionT1).token1_amount_t0 =
        fin snapshot0.liquidityTokenBalance / fin snapshot0.liquidityTokenTotalSupply *
          fin snapshot0.reserve1 ∧
      (bucketValues sqrt returns positionT1).assetValueT0 =
        fin snapshot0.liquidityTokenBalance / fin snapshot0.liquidityTokenTotalSupply *
            fin snapshot0.reserve0 * fin snapshot0.token0PriceUSD +
          fin snapshot0.liquidityTokenBalance / fin snapshot0.liquidityTokenTotalSupply *
            fin snapshot0.reserve1 * fin snapshot0.token1PriceUSD ∧
      (bucketValues sqrt returns positionT1).netValueT0 =
        fin snapshot0.liquidityTokenBalance / fin snapshot0.liquidityTokenTotalSupply *
          fin snapshot0.reserveUSD) ∧
    (∀ (getShareValueOverTime : List Nat → List ShareValue) (startDateTimestamp now : Nat)
      (history history' : List Snapshot) (snapshot0 : Snapshot) (later later' : List Snapshot)
      (currentPairData : PairData) (currentETHPrice : ℚ),
      List.Forall₂ sameButBalance history history' →
      List.Forall₂ sameButBalance later later' →
      useReturnsPerPairHistory.fetchData sqrt getShareValueOverTime startDateTimestamp now
          history (snapshot0 :: later) currentPairData currentETHPrice =
        useReturnsPerPairHistory.fetchData sqrt getShareValueOverTime startDateTimestamp now
          history' (snapshot0 :: later') currentPairData currentETHPrice) := by
  refine ⟨?_, ?_, ?_⟩
  · intro pairSnapshots shareValues currentPairData currentETHPrice length index days returns
      acc out h
    exact bucketLoop_t0State sqrt pairSnapshots shareValues currentPairData currentETHPrice
      length days index returns acc out h
  · intro snapshot0 returns positionT1 h
    simp only [Returns.t0State, initReturns, List.cons.injEq, and_true] at h
    obtain ⟨h1, h2, h3, h4, h5, h6, h7⟩ := h
    simp only [bucketValues, h1, h2, h3, h4, h5, h6, h7, and_self]
  · intro getShareValueOverTime startDateTimestamp now history history' snapshot0 later later'
      currentPairData currentETHPrice hh hl
    have hs := sortedPositions_sameButBalance hh
    have hp : List.Forall₂ sameButBalance (snapshot0 :: later) (snapshot0 :: later') :=
      List.Forall₂.cons rfl hl
    unfold useReturnsPerPairHistory.fetchData
    generalize sortedPositions history = sorted at hs
    generalize sortedPositions history' = sorted' at hs
    cases hs with
    | nil => rfl
    | cons hfirst _ =>
      simp only [sameButBalance_timestamp hfirst, bucketLoop_sameButBalance sqrt hp]

/-- Witness of C15: the sample history, and the same history with the balance of its second
snapshot replaced by 999, give the same series. -/
theorem C15_t0_state_never_advances_witness :
    useReturnsPerPairHistory.fetchData sqrtQ (fun days => days.map sampleShareValue) 50 172805
        [sampleSnapshot0, sampleSnapshot1] [sampleSnapshot0, sampleSnapshot1] samplePairData 1 =
      useReturnsPerPairHistory.fetchData sqrtQ (fun days => days.map sampleShareValue) 50 172805
        [sampleSnapshot0, sampleSnapshot1Rebalanced]
        [sampleSnapshot0, sampleSnapshot1Rebalanced] samplePairData 1 :=
  (C15_t0_state_never_advances sqrtQ).2.2 (fun days => days.map sampleShareValue) 50 172805
    [sampleSnapshot0, sampleSnapshot1] [sampleSnapshot0, sampleSnapshot1Rebalanced]
    sampleSnapshot0 [sampleSnapshot1] [sampleSnapshot1Rebalanced] samplePairData 1
    (List.Forall₂.cons rfl (List.Forall₂.cons rfl List.Forall₂.nil))
    (List.Forall₂.cons rfl List.Forall₂.nil)


/-! ## The reducer and the history key -/

theorem objGet_objSet {β : Type} (o : Obj β) (k k' : String) (v : β) :
    objGet (objSet o k v) k' = if k = k' then some v else objGet o k' := by
  induction o with
  | nil => simp [objSet, objGet]
  | cons e rest ih =>
    simp only [objSet]
    split_ifs with h1 h2 h2
    · simp [objGet, h2]
    · subst h1
      simp [objGet, h2]
    · subst h2
      simp [objGet, h1, ih]
    · simp only [objGet, ih, if_neg h2]

theorem objGet_accountOf_history {α : Type} (state : State α) (account : String)
    (h : historyOf state account = none) :
    objGet (accountOf state account) USER_POSITION_HISTORY_KEY = none := by
  unfold historyOf at h
  unfold accountOf
  cases hget : objGet state account with
  | none => rfl
  | some data =>
    rw [hget] at h
    simpa using h

theorem historyOf_objSet_account {α : Type} (state : State α) (account key : String)
    (value : Stored α) (hkey : key ≠ USER_POSITION_HISTORY_KEY)
    (h : ∀ a, historyOf state a = none) (a : String) :
    historyOf (objSet state account (objSet (accountOf state account) key value)) a =
      none := by
  unfold historyOf
  rw [objGet_objSet]
  split_ifs with hacc
  · show objGet (objSet (accountOf state account) key value) USER_POSITION_HISTORY_KEY = none
    rw [objGet_objSet, if_neg hkey]
    exact objGet_accountOf_history state account (h account)
  · exact h a

theorem reducer_history {α : Type} (state state' : State α) (action : Action α)
    (hstep : reducer state action = .ok state') (h : ∀ a, historyOf state a = none) :
    ∀ a, historyOf state' a = none := by
  unfold reducer at hstep
  split_ifs at hstep
  · cases hstep
    exact historyOf_objSet_account _ _ _ _ (by decide) h
  · cases hstep
    exact historyOf_objSet_account _ _ _ _ (by decide) h
  · cases hstep
    exact historyOf_objSet_account _ _ _ _ (by decide) h
  · cases hstep
    exact historyOf_objSet_account _ _ _ _ (by decide) h

theorem foldlM_reducer_history {α : Type} (actions : List (Action α)) :
    ∀ state0 state : State α, (∀ a, historyOf state0 a = none) →
      actions.foldlM reducer state0 = .ok state → ∀ a, historyOf state a = none := by
  induction actions with
  | nil =>
    intro state0 state h hrun
    simp only [List.foldlM_nil] at hrun
    cases hrun
    exact h
  | cons action rest ih =>
    intro state0 state h hrun
    rw [List.foldlM_cons] at hrun
    cases hstep : reducer state0 action with
    | error e =>
      rw [hstep] at hrun
      cases hrun
    | ok state1 =>
      rw [hstep] at hrun
      exact ih state1 state (reducer_history state0 state1 action hstep h) hrun

/-- C18: no state reached from `INITIAL_STATE` through the reducer holds the key
`USER_POSITION_HISTORY_KEY`.  For every finite sequence of actions the reducer accepts and
every account, `state[account][USER_POSITION_HISTORY_KEY]` is `undefined`
(`UPDATE_USER_POSITION_HISTORY` writes its payload under `USER_SNAPSHOTS`), so the guards of
`useReturnsPerPairHistory` and `useUserLiquidityHistory` never call `fetchData`. -/
theorem C18_history_key_never_written {α : Type} (actions : List (Action α)) (state : State α)
    (hrun : dispatchAll actions = .ok state) (account : String) :
    historyOf state account = none ∧
    ∀ (truthy : Stored α → Bool) (others : Bool),
      callsFetchData (historyOf state account) truthy others = false := by
  have h : historyOf state account = none :=
    foldlM_reducer_history actions INITIAL_STATE state (fun _ => rfl) hrun account
  refine ⟨h, ?_⟩
  intro truthy others
  rw [h]
  rfl

/-- Witness of C18: after one action of each accepted type for the account `0xuser`,
`UPDATE_USER_POSITION_HISTORY` included, the history of that account is absent. -/
theorem C18_history_key_never_written_witness :
    dispatchAll sampleActions = .ok sampleState ∧
    objGet (accountOf sampleState "0xuser") USER_SNAPSHOTS = some (Stored.value "snapshots") ∧
    historyOf sampleState "0xuser" = none :=
  ⟨rfl, rfl, (C18_history_key_never_written sampleActions sampleState rfl "0xuser").1⟩

/-! ## Arithmetic of binary64 -/

set_option maxRecDepth 1000000

set_option exponentiation.threshold 5000

namespace Double

theorem scaled_not (n : Bool) (m : Nat) (e : Int) : scaled (!n) m e = -scaled n m e := by
  cases n <;> simp [scaled]

/-- A finite number minus itself is `+0`. -/
theorem sub_self_of_isFinite (x : Double) (h : x.isFinite = true) : sub x x = zero := by
  cases x with
  | finite n m e =>
    simp only [sub, neg, add, scaled_not]
    simp [zero]
  | inf a => simp [isFinite] at h
  | nan => simp [isFinite] at h

end Double

namespace Double

theorem ofNat_1 : ofNat 1 = finite false 4503599627370496 (-52) := by rfl

theorem ofNat_2 : ofNat 2 = finite false 4503599627370496 (-51) := by rfl

theorem ofNat_4 : ofNat 4 = finite false 4503599627370496 (-50) := by rfl

theorem ofNat_100 : ofNat 100 = finite false 7036874417766400 (-46) := by rfl

theorem ofNat_1000 : ofNat 1000 = finite false 8796093022208000 (-43) := by rfl

theorem ofNat_2000 : ofNat 2000 = finite false 8796093022208000 (-42) := by rfl

theorem ofNat_3000 : ofNat 3000 = finite false 6597069766656000 (-41) := by rfl

theorem ofNat_6000 : ofNat 6000 = finite false 6597069766656000 (-40) := by rfl

end Double
theorem bucketValuesIn_sampleT0_sampleT1 :
    bucketValuesIn Double.arith sampleT0 sampleT1 =
      { t0Ownership := Double.finite false 7205759403792794 (-56)
        t1Ownership := Double.finite false 7205759403792794 (-56)
        token0_amount_t0 := Double.finite false 7036874417766400 (-46)
        token1_amount_t0 := Double.finite false 7036874417766400 (-46)
        token0_amount_t1 := Double.finite false 7036874417766400 (-46)
        token1_amount_t1 := Double.finite false 7036874417766400 (-46)
        sqrK_t0 := Double.finite false 7036874417766400 (-46)
        token0_amount_no_fees := Double.finite false 7036874417766400 (-46)
        token1_amount_no_fees := Double.finite false 7036874417766400 (-46)
        no_fees_usd := Double.finite false 7036874417766400 (-45)
        difference_fees_token0 := Double.finite false 0 (-1074)
        difference_fees_token1 := Double.finite false 0 (-1074)
        difference_fees_usd := Double.finite false 0 (-1074)
        assetValueT0 := Double.finite false 7036874417766400 (-45)
        assetValueT1 := Double.finite false 7036874417766400 (-45)
        imp_loss_usd := Double.finite false 0 (-1074)
        mooniswap_return := Double.finite false 0 (-1074)
        assetReturn := Double.finite false 0 (-1074)
        netValueT0 := Double.finite false 7036874417766400 (-45)
        netValueT1 := Double.finite false 7036874417766400 (-45) } := by
  rfl

theorem bucketValuesIn_sampleT0_sampleT1Changed :
    bucketValuesIn Double.arith sampleT0 sampleT1Changed =
      { t0Ownership := Double.finite false 7205759403792794 (-56)
        t1Ownership := Double.finite false 7205759403792794 (-56)
        token0_amount_t0 := Double.finite false 7036874417766400 (-46)
        token1_amount_t0 := Double.finite false 7036874417766400 (-46)
        token0_amount_t1 := Double.finite false 7036874417766400 (-45)
        token1_amount_t1 := Double.finite false 7036874417766400 (-46)
        sqrK_t0 := Double.finite false 7036874417766400 (-46)
        token0_amount_no_fees := Double.finite false 7036874417766400 (-45)
        token1_amount_no_fees := Double.finite false 7036874417766400 (-47)
        no_fees_usd := Double.finite false 7036874417766400 (-44)
        difference_fees_token0 := Double.finite false 0 (-1074)
        difference_fees_token1 := Double.finite false 7036874417766400 (-47)
        difference_fees_usd := Double.finite false 7036874417766400 (-45)
        assetValueT0 := Double.finite false 7036874417766400 (-45)
        assetValueT1 := Double.finite false 8796093022208000 (-44)
        imp_loss_usd := Double.finite true 7036874417766400 (-46)
        mooniswap_return := Double.finite false 7036874417766400 (-46)
        assetReturn := Double.finite false 5277655813324800 (-44)
        netValueT0 := Double.finite false 7036874417766400 (-45)
        netValueT1 := Double.finite false 5277655813324800 (-43) } := by
  rfl

theorem bucketValuesIn_sampleT0_sampleT1Appreciated :
    bucketValuesIn Double.arith sampleT0 sampleT1Appreciated =
      { t0Ownership := Double.finite false 7205759403792794 (-56)
        t1Ownership := Double.finite false 7205759403792794 (-56)
        token0_amount_t0 := Double.finite false 7036874417766400 (-46)
        token1_amount_t0 := Double.finite false 7036874417766400 (-46)
        token0_amount_t1 := Double.finite false 7036874417766400 (-46)
        token1_amount_t1 := Double.finite false 7036874417766400 (-46)
        sqrK_t0 := Double.finite false 7036874417766400 (-46)
        token0_amount_no_fees := Double.finite false 7036874417766400 (-46)
        token1_amount_no_fees := Double.finite false 7036874417766400 (-46)
        no_fees_usd := Double.finite false 5277655813324800 (-44)
        difference_fees_token0 := Double.finite false 0 (-1074)
        difference_fees_token1 := Double.finite false 0 (-1074)
        difference_fees_usd := Double.finite false 0 (-1074)
        assetValueT0 := Double.finite false 7036874417766400 (-45)
        assetValueT1 := Double.finite false 5277655813324800 (-44)
        imp_loss_usd := Double.finite false 0 (-1074)
        mooniswap_return := Double.finite false 0 (-1074)
        assetReturn := Double.finite false 7036874417766400 (-46)
        netValueT0 := Double.finite false 7036874417766400 (-45)
        netValueT1 := Double.finite false 7036874417766400 (-45) } := by
  rfl

theorem bucketValuesIn_sampleT0Price2_sampleT1Price2 :
    bucketValuesIn Double.arith sampleT0Price2 sampleT1Price2 =
      { t0Ownership := Double.finite false 7205759403792794 (-56)
        t1Ownership := Double.finite false 7205759403792794 (-56)
        token0_amount_t0 := Double.finite false 7036874417766400 (-46)
        token1_amount_t0 := Double.finite false 7036874417766400 (-46)
        token0_amount_t1 := Double.finite false 7036874417766400 (-46)
        token1_amount_t1 := Double.finite false 7036874417766400 (-46)
        sqrK_t0 := Double.finite false 7036874417766400 (-46)
        token0_amount_no_fees := Double.finite false 4975821619160760 (-45)
        token1_amount_no_fees := Double.finite false 4975821619160759 (-46)
        no_fees_usd := Double.finite false 4975821619160760 (-44)
        difference_fees_token0 := Double.finite true 5829537641110240 (-47)
        difference_fees_token1 := Double.finite false 8244211194422564 (-48)
        difference_fees_usd := Double.finite false 4829347106624648 (-48)
        assetValueT0 := Double.finite false 5277655813324800 (-44)
        assetValueT1 := Double.finite false 5277655813324800 (-44)
        imp_loss_usd := Double.finite true 4829347106624640 (-48)
        mooniswap_return := Double.finite false 4503599627370496 (-97)
        assetReturn := Double.finite false 0 (-1074)
        netValueT0 := Double.finite false 5277655813324800 (-44)
        netValueT1 := Double.finite false 5277655813324800 (-44) } := by
  rfl

theorem bucketValuesIn_sampleT0Third_sampleT1Third :
    bucketValuesIn Double.arith sampleT0Third sampleT1Third =
      { t0Ownership := Double.finite false 6004799503160661 (-54)
        t1Ownership := Double.finite false 6004799503160661 (-54)
        token0_amount_t0 := Double.finite false 5864062014805333 (-44)
        token1_amount_t0 := Double.finite false 5864062014805333 (-44)
        token0_amount_t1 := Double.finite false 5864062014805333 (-44)
        token1_amount_t1 := Double.finite false 5864062014805333 (-44)
        sqrK_t0 := Double.finite false 5864062014805333 (-44)
        token0_amount_no_fees := Double.finite false 5864062014805333 (-44)
        token1_amount_no_fees := Double.finite false 5864062014805333 (-44)
        no_fees_usd := Double.finite false 8796093022208000 (-43)
        difference_fees_token0 := Double.finite false 0 (-1074)
        difference_fees_token1 := Double.finite false 0 (-1074)
        difference_fees_usd := Double.finite false 0 (-1074)
        assetValueT0 := Double.finite false 5864062014805333 (-43)
        assetValueT1 := Double.finite false 8796093022208000 (-43)
        imp_loss_usd := Double.finite false 0 (-1074)
        mooniswap_return := Double.finite false 0 (-1074)
        assetReturn := Double.finite false 5864062014805334 (-44)
        netValueT0 := Double.finite false 5864062014805333 (-43)
        netValueT1 := Double.finite false 5864062014805333 (-43) } := by
  rfl

theorem bucketValuesIn_sampleT0Wide_sampleT1Wide :
    bucketValuesIn Double.arith sampleT0Wide sampleT1Wide =
      { t0Ownership := Double.finite false 4503599627370496 (-52)
        t1Ownership := Double.finite false 4503599627370496 (-52)
        token0_amount_t0 := Double.finite false 4503599627370496 (-52)
        token1_amount_t0 := Double.finite false 6103515625000000 (14)
        token0_amount_t1 := Double.finite false 4503599627370496 (-52)
        token1_amount_t1 := Double.finite false 6103515625000000 (14)
        sqrK_t0 := Double.finite false 5242880000000000 (-19)
        token0_amount_no_fees := Double.finite false 5242880000000000 (-19)
        token1_amount_no_fees := Double.finite false 5242880000000000 (-19)
        no_fees_usd := Double.finite false 7864320000000000 (-18)
        difference_fees_token0 := Double.finite true 5242879999475712 (-19)
        difference_fees_token1 := Double.finite false 6103515624389648 (14)
        difference_fees_usd := Double.finite false 6103515623168945 (14)
        assetValueT0 := Double.finite false 6103515625000000 (14)
        assetValueT1 := Double.finite false 6103515625000000 (14)
        imp_loss_usd := Double.finite true 6103515623168945 (14)
        mooniswap_return := Double.finite false 0 (-1074)
        assetReturn := Double.finite false 0 (-1074)
        netValueT0 := Double.finite false 6103515625000000 (14)
        netValueT1 := Double.finite false 6103515625000000 (14) } := by
  rfl

/-! ## The two transcriptions agree -/

/-- The decomposition over `JsNum` is the generic decomposition at the exact arithmetic. -/
theorem bucketValues_toIn (sqrt : ℚ → ℚ) (positionT0 : Returns) (positionT1 : PositionT1) :
    (bucketValues sqrt positionT0 positionT1).toIn =
      bucketValuesIn (JsNum.arith sqrt) positionT0.t0Values positionT1.t1Values :=
  rfl

/-- The total over `JsNum` is the generic total at the exact arithmetic. -/
theorem totalAmountProvidedUSD_eq_In (sqrt : ℚ → ℚ) (history : List Snapshot) :
    totalAmountProvidedUSD history =
      totalAmountProvidedUSDIn (JsNum.arith sqrt) (history.map Snapshot.values) := by
  unfold totalAmountProvidedUSD totalAmountProvidedUSDIn
  rw [List.foldl_map]
  simp only [JsNum.arith, Nat.cast_zero]
  rfl

/-- One interval over `JsNum` accumulates the constants of the generic interval at the exact
arithmetic; in particular its weight is `IntervalValuesIn.weight`. -/
theorem intervalStep_eq_In (sqrt : ℚ → ℚ) (total : JsNum) (acc : ReturnTotals)
    (positionT0 : Snapshot) (positionT1 : WindowEnd) :
    intervalStep total acc positionT0 positionT1 =
      { assetReturn :=
          accumulateTruthy acc.assetReturn
            (intervalValuesIn (JsNum.arith sqrt) total positionT0.values
              positionT1.values).assetValueChange
        netReturn :=
          if acc.netReturn.truthy then
            acc.netReturn +
                (intervalValuesIn (JsNum.arith sqrt) total positionT0.values
                  positionT1.values).netValueT1 -
              (intervalValuesIn (JsNum.arith sqrt) total positionT0.values
                positionT1.values).netValueT0
          else
            (intervalValuesIn (JsNum.arith sqrt) total positionT0.values
                positionT1.values).netValueT1 -
              (intervalValuesIn (JsNum.arith sqrt) total positionT0.values
                positionT1.values).netValueT0
        assetPercentChange :=
          accumulateTruthy acc.assetPercentChange
            (intervalValuesIn (JsNum.arith sqrt) total positionT0.values
              positionT1.values).weightedAssetChange
        netPercentChange :=
          accumulateTruthy acc.netPercentChange
            (intervalValuesIn (JsNum.arith sqrt) total positionT0.values
              positionT1.values).wieghtedNetChange } := by
  simp only [intervalStep, intervalValuesIn, JsNum.arith, Snapshot.values, WindowEnd.values,
    Nat.cast_ofNat]
  rfl


/-! ## The sample buckets carry no rounding error -/

namespace Double

theorem sqrt_ofNat_4 : sqrt (ofNat 4) = finite false 4503599627370496 (-51) := by rfl

end Double

theorem exactPoolReturn_sampleT1 :
    ExactPoolReturn sampleT1 (bucketValuesIn Double.arith sampleT0 sampleT1) := by
  rw [bucketValuesIn_sampleT0_sampleT1]
  constructor <;>
    simp [sampleT1, Double.ofNat_1, Double.toRat, Double.isFinite] <;>
    norm_num

theorem exactAssetReturn_sampleT1Appreciated :
    ExactAssetReturn sampleT0 sampleT1Appreciated
      (bucketValuesIn Double.arith sampleT0 sampleT1Appreciated) := by
  rw [bucketValuesIn_sampleT0_sampleT1Appreciated]
  constructor <;>
    simp [sampleT0, sampleT1, sampleT1Appreciated, Double.ofNat_1, Double.ofNat_2, Double.toRat,
      Double.isFinite] <;>
    norm_num

theorem exactCounterfactual_sampleT1Changed :
    ExactCounterfactual sampleT1Changed
      (bucketValuesIn Double.arith sampleT0 sampleT1Changed) := by
  rw [bucketValuesIn_sampleT0_sampleT1Changed]
  constructor <;>
    simp only [sampleT1Changed, Double.sqrt_ofNat_4] <;>
    simp [Double.ofNat_4, Double.toRat, Double.isFinite] <;>
    norm_num

theorem exactPoolReturn_sampleT1Changed :
    ExactPoolReturn sampleT1Changed (bucketValuesIn Double.arith sampleT0 sampleT1Changed) := by
  rw [bucketValuesIn_sampleT0_sampleT1Changed]
  constructor <;>
    simp [sampleT1Changed, Double.ofNat_1, Double.ofNat_4, Double.toRat, Double.isFinite] <;>
    norm_num

theorem exactAssetReturn_sampleT1Changed :
    ExactAssetReturn sampleT0 sampleT1Changed
      (bucketValuesIn Double.arith sampleT0 sampleT1Changed) := by
  rw [bucketValuesIn_sampleT0_sampleT1Changed]
  constructor <;>
    simp [sampleT0, sampleT1Changed, Double.ofNat_1, Double.ofNat_4, Double.toRat,
      Double.isFinite] <;>
    norm_num

theorem exactShares_sampleT1Changed :
    ExactShares sampleT0 sampleT1Changed
      (bucketValuesIn Double.arith sampleT0 sampleT1Changed) := by
  rw [bucketValuesIn_sampleT0_sampleT1Changed]
  constructor <;>
    simp [sampleT0, sampleT1Changed, Double.ofNat_100, Double.ofNat_1000, Double.ofNat_2000,
      Double.ofNat_6000, Double.toRat, Double.isFinite] <;>
    norm_num

/-! ## The decomposition of one bucket -/

/-- C9 (counterexample): with total supply 1000 and T1 equal to T0 in all six values, at
`token1PriceUSD = 2`, the code computes `mooniswap_return = 2 ^ (-45)`, not `0`: the square
root of 2 is rounded and the fee-free terms do not cancel. -/
theorem C9_pool_return_not_zero_after_rounding :
    sampleT1Price2.totalSupply = sampleT0Price2.totalSupply ∧
    sampleT1Price2.reserve0 = sampleT0Price2.reserve0 ∧
    sampleT1Price2.reserve1 = sampleT0Price2.reserve1 ∧
    sampleT1Price2.reserveUSD = sampleT0Price2.reserveUSD ∧
    sampleT1Price2.token0PriceUSD = sampleT0Price2.token0PriceUSD ∧
    sampleT1Price2.token1PriceUSD = sampleT0Price2.token1PriceUSD ∧
    sampleT0Price2.totalSupply.toRat = 1000 ∧
    (bucketValuesIn Double.arith sampleT0Price2 sampleT1Price2).mooniswap_return =
      Double.finite false 4503599627370496 (-97) ∧
    (bucketValuesIn Double.arith sampleT0Price2 sampleT1Price2).mooniswap_return.toRat =
      1 / 2 ^ 45 := by
  rw [bucketValuesIn_sampleT0Price2_sampleT1Price2]
  refine ⟨rfl, rfl, rfl, rfl, rfl, rfl, ?_, rfl, ?_⟩
  · simp [sampleT0Price2, sampleT0, Double.ofNat_1000, Double.toRat]
    norm_num
  · simp [Double.toRat]
    norm_num

/-- C9 (amended): when T1 has the same total supply, reserves, `reserveUSD` and prices as T0,
the code computes `assetReturn = +0` whenever `assetValueT0` is finite and
`netValueT1 - netValueT0 = +0` whenever `netValueT0` is finite; and `mooniswap_return` is `0`
whenever the values that lead to it carry no rounding error. -/
theorem C9_no_change_returns (positionT0 : T0Values Double) (positionT1 : T1Values Double)
    (hsupply : positionT1.totalSupply = positionT0.totalSupply)
    (hreserve0 : positionT1.reserve0 = positionT0.reserve0)
    (hreserve1 : positionT1.reserve1 = positionT0.reserve1)
    (hreserveUSD : positionT1.reserveUSD = positionT0.reserveUSD)
    (hprice0 : positionT1.token0PriceUSD = positionT0.token0PriceUSD)
    (hprice1 : positionT1.token1PriceUSD = positionT0.token1PriceUSD) :
    ((bucketValuesIn Double.arith positionT0 positionT1).assetValueT0.isFinite = true →
      (bucketValuesIn Double.arith positionT0 positionT1).assetReturn = Double.zero) ∧
    ((bucketValuesIn Double.arith positionT0 positionT1).netValueT0.isFinite = true →
      Double.sub (bucketValuesIn Double.arith positionT0 positionT1).netValueT1
        (bucketValuesIn Double.arith positionT0 positionT1).netValueT0 = Double.zero) ∧
    (ExactPoolReturn positionT1 (bucketValuesIn Double.arith positionT0 positionT1) →
      (bucketValuesIn Double.arith positionT0 positionT1).mooniswap_return.toRat = 0) := by
  refine ⟨fun h => ?_, fun h => ?_, fun h => ?_⟩
  · have hav :
        (bucketValuesIn Double.arith positionT0 positionT1).assetValueT1 =
          (bucketValuesIn Double.arith positionT0 positionT1).assetValueT0 := by
      simp only [bucketValuesIn, hprice0, hprice1]
    show Double.sub (bucketValuesIn Double.arith positionT0 positionT1).assetValueT1
      (bucketValuesIn Double.arith positionT0 positionT1).assetValueT0 = Double.zero
    rw [hav]
    exact Double.sub_self_of_isFinite _ h
  · have hnet :
        (bucketValuesIn Double.arith positionT0 positionT1).netValueT1 =
          (bucketValuesIn Double.arith positionT0 positionT1).netValueT0 := by
      simp only [bucketValuesIn, hsupply, hreserveUSD]
    rw [hnet]
    exact Double.sub_self_of_isFinite _ h
  · have h0 :
        (bucketValuesIn Double.arith positionT0 positionT1).token0_amount_t1 =
          (bucketValuesIn Double.arith positionT0 positionT1).token0_amount_t0 := by
      simp only [bucketValuesIn, hsupply, hreserve0]
    have h1 :
        (bucketValuesIn Double.arith positionT0 positionT1).token1_amount_t1 =
          (bucketValuesIn Double.arith positionT0 positionT1).token1_amount_t0 := by
      simp only [bucketValuesIn, hsupply, hreserve1]
    have e1 := h.no_fees_usd
    have e2 := h.difference_fees_token0
    have e3 := h.difference_fees_token1
    have e4 := h.difference_fees_usd
    have e5 := h.assetValueT1
    have e6 := h.imp_loss_usd
    have e7 := h.mooniswap_return
    rw [h0] at e2
    rw [h1] at e3
    rw [e7, e4, e6, e1, e5, e2, e3]
    ring

/-- C9 (witness): balance 100 of total supply 1000, reserves 1000/1000, `reserveUSD` 2000,
both prices 1, and T1 equal to T0: the three returns are zero. -/
theorem C9_no_change_returns_witness :
    (bucketValuesIn Double.arith sampleT0 sampleT1).assetReturn = Double.zero ∧
    Double.sub (bucketValuesIn Double.arith sampleT0 sampleT1).netValueT1
      (bucketValuesIn Double.arith sampleT0 sampleT1).netValueT0 = Double.zero ∧
    (bucketValuesIn Double.arith sampleT0 sampleT1).mooniswap_return.toRat = 0 :=
  ⟨(C9_no_change_returns sampleT0 sampleT1 rfl rfl rfl rfl rfl rfl).1
      (by rw [bucketValuesIn_sampleT0_sampleT1]; rfl),
    (C9_no_change_returns sampleT0 sampleT1 rfl rfl rfl rfl rfl rfl).2.1
      (by rw [bucketValuesIn_sampleT0_sampleT1]; rfl),
    (C9_no_change_returns sampleT0 sampleT1 rfl rfl rfl rfl rfl rfl).2.2
      exactPoolReturn_sampleT1⟩


/-- C10 (counterexample): at balance 1 of total supply 3, reserves 1000/1000 and
`token0PriceUSD` rising from 1 to 2, the code computes an `assetReturn`
(`333.33333333333337`) that differs from the formula of the claim on its own token amounts
(`333.3333333333333`); and at token amounts 1 and `10 ^ 20`, both positive, with
`token0PriceUSD` rising from 1 to 2 and `token1PriceUSD` unchanged, it computes
`assetReturn = +0`, which is not strictly positive. -/
theorem C10_asset_return_off_formula_after_rounding :
    (bucketValuesIn Double.arith sampleT0Third sampleT1Third).assetReturn.toRat ≠
      (bucketValuesIn Double.arith sampleT0Third sampleT1Third).token0_amount_t0.toRat *
          (sampleT1Third.token0PriceUSD.toRat - sampleT0Third.token0PriceUSD.toRat) +
        (bucketValuesIn Double.arith sampleT0Third sampleT1Third).token1_amount_t0.toRat *
          (sampleT1Third.token1PriceUSD.toRat - sampleT0Third.token1PriceUSD.toRat) ∧
    (bucketValuesIn Double.arith sampleT0Wide sampleT1Wide).token0_amount_t0.toRat = 1 ∧
    (bucketValuesIn Double.arith sampleT0Wide sampleT1Wide).token1_amount_t0.toRat = 10 ^ 20 ∧
    sampleT0Wide.token0PriceUSD.toRat < sampleT1Wide.token0PriceUSD.toRat ∧
    sampleT0Wide.token1PriceUSD.toRat = sampleT1Wide.token1PriceUSD.toRat ∧
    (bucketValuesIn Double.arith sampleT0Wide sampleT1Wide).assetReturn = Double.zero := by
  rw [bucketValuesIn_sampleT0Third_sampleT1Third, bucketValuesIn_sampleT0Wide_sampleT1Wide]
  refine ⟨?_, ?_, ?_, ?_, ?_, rfl⟩ <;>
    simp [sampleT0Third, sampleT1Third, sampleT0Wide, sampleT1Wide, sampleT0, sampleT1,
      Double.ofNat_1, Double.ofNat_2, Double.toRat] <;>
    norm_num

/-- C10 (amended): the token amounts are `t0Ownership * T0.reserve0/1`; `assetReturn` is the
same for every T1 with the same two prices, whatever its reserves, `reserveUSD` and total
supply; and when `assetValueT0`, `assetValueT1` and `assetReturn` carry no rounding error,
`assetReturn` is the price drift on the T0 token amounts, strictly positive when both amounts
are positive, neither price falls and at least one rises. -/
theorem C10_asset_return_is_price_drift (positionT0 : T0Values Double)
    (positionT1 : T1Values Double) :
    (bucketValuesIn Double.arith positionT0 positionT1).token0_amount_t0 =
      Double.mul (bucketValuesIn Double.arith positionT0 positionT1).t0Ownership
        positionT0.reserve0 ∧
    (bucketValuesIn Double.arith positionT0 positionT1).token1_amount_t0 =
      Double.mul (bucketValuesIn Double.arith positionT0 positionT1).t0Ownership
        positionT0.reserve1 ∧
    (∀ positionT1' : T1Values Double,
      positionT1'.token0PriceUSD = positionT1.token0PriceUSD →
      positionT1'.token1PriceUSD = positionT1.token1PriceUSD →
      (bucketValuesIn Double.arith positionT0 positionT1').assetReturn =
        (bucketValuesIn Double.arith positionT0 positionT1).assetReturn) ∧
    (ExactAssetReturn positionT0 positionT1 (bucketValuesIn Double.arith positionT0 positionT1) →
      (bucketValuesIn Double.arith positionT0 positionT1).assetReturn.toRat =
          (bucketValuesIn Double.arith positionT0 positionT1).token0_amount_t0.toRat *
              (positionT1.token0PriceUSD.toRat - positionT0.token0PriceUSD.toRat) +
            (bucketValuesIn Double.arith positionT0 positionT1).token1_amount_t0.toRat *
              (positionT1.token1PriceUSD.toRat - positionT0.token1PriceUSD.toRat) ∧
        (0 < (bucketValuesIn Double.arith positionT0 positionT1).token0_amount_t0.toRat →
          0 < (bucketValuesIn Double.arith positionT0 positionT1).token1_amount_t0.toRat →
          positionT0.token0PriceUSD.toRat ≤ positionT1.token0PriceUSD.toRat →
          positionT0.token1PriceUSD.toRat ≤ positionT1.token1PriceUSD.toRat →
          (positionT0.token0PriceUSD.toRat < positionT1.token0PriceUSD.toRat ∨
            positionT0.token1PriceUSD.toRat < positionT1.token1PriceUSD.toRat) →
          0 < (bucketValuesIn Double.arith positionT0 positionT1).assetReturn.toRat)) := by
  refine ⟨rfl, rfl, fun positionT1' h0 h1 => ?_, fun h => ?_⟩
  · simp only [bucketValuesIn, h0, h1]
  · have hformula :
        (bucketValuesIn Double.arith positionT0 positionT1).assetReturn.toRat =
          (bucketValuesIn Double.arith positionT0 positionT1).token0_amount_t0.toRat *
              (positionT1.token0PriceUSD.toRat - positionT0.token0PriceUSD.toRat) +
            (bucketValuesIn Double.arith positionT0 positionT1).token1_amount_t0.toRat *
              (positionT1.token1PriceUSD.toRat - positionT0.token1PriceUSD.toRat) := by
      rw [h.assetReturn, h.assetValueT1, h.assetValueT0]
      ring
    refine ⟨hformula, fun ha0 ha1 hp0 hp1 hrise => ?_⟩
    rw [hformula]
    rcases hrise with hlt | hlt
    · have h1 := mul_pos ha0 (sub_pos.mpr hlt)
      have h2 := mul_nonneg ha1.le (sub_nonneg.mpr hp1)
      linarith
    · have h1 := mul_nonneg ha0.le (sub_nonneg.mpr hp0)
      have h2 := mul_pos ha1 (sub_pos.mpr hlt)
      linarith

/-- C10 (witness): balance 100 of total supply 1000, reserves 1000/1000, prices 1 and 1 at
T0 and `token0PriceUSD = 2` at T1: `assetValueT0 = 200` and `assetReturn = 100`, the price
drift on 100 units of token0, strictly positive. -/
theorem C10_asset_return_is_price_drift_witness :
    (bucketValuesIn Double.arith sampleT0 sampleT1Appreciated).assetValueT0.toRat = 200 ∧
    (bucketValuesIn Double.arith sampleT0 sampleT1Appreciated).assetReturn.toRat = 100 ∧
    (bucketValuesIn Double.arith sampleT0 sampleT1Appreciated).assetReturn.toRat =
      (bucketValuesIn Double.arith sampleT0 sampleT1Appreciated).token0_amount_t0.toRat *
          (sampleT1Appreciated.token0PriceUSD.toRat - sampleT0.token0PriceUSD.toRat) +
        (bucketValuesIn Double.arith sampleT0 sampleT1Appreciated).token1_amount_t0.toRat *
          (sampleT1Appreciated.token1PriceUSD.toRat - sampleT0.token1PriceUSD.toRat) ∧
    0 < (bucketValuesIn Double.arith sampleT0 sampleT1Appreciated).assetReturn.toRat := by
  have h :=
    (C10_asset_return_is_price_drift sampleT0 sampleT1Appreciated).2.2.2
      exactAssetReturn_sampleT1Appreciated
  refine ⟨?_, ?_, h.1, h.2 ?_ ?_ ?_ ?_ ?_⟩
  all_goals
    first
    | rw [bucketValuesIn_sampleT0_sampleT1Appreciated]; simp [Double.toRat]; norm_num
    | simp [sampleT0, sampleT1, sampleT1Appreciated, Double.ofNat_1, Double.ofNat_2,
        Double.toRat] <;> norm_num

/-! ## The fee-free counterfactual and the pool return -/

/-- C12 (counterexample): at `token1PriceUSD = 2 > 0` and T0 token amounts 100 and 100, the
product of the two fee-free amounts the code computes is not the product of the T0 amounts:
multiplied by the code it is `9999.999999999998` against `10000`. -/
theorem C12_product_not_kept_after_rounding :
    0 < sampleT1Price2.token1PriceUSD.toRat ∧
    (bucketValuesIn Double.arith sampleT0Price2 sampleT1Price2).token0_amount_t0.toRat = 100 ∧
    (bucketValuesIn Double.arith sampleT0Price2 sampleT1Price2).token1_amount_t0.toRat = 100 ∧
    (bucketValuesIn Double.arith sampleT0Price2 sampleT1Price2).token0_amount_no_fees.toRat *
        (bucketValuesIn Double.arith sampleT0Price2 sampleT1Price2).token1_amount_no_fees.toRat ≠
      (bucketValuesIn Double.arith sampleT0Price2 sampleT1Price2).token0_amount_t0.toRat *
        (bucketValuesIn Double.arith sampleT0Price2 sampleT1Price2).token1_amount_t0.toRat ∧
    Double.mul (bucketValuesIn Double.arith sampleT0Price2 sampleT1Price2).token0_amount_no_fees
        (bucketValuesIn Double.arith sampleT0Price2 sampleT1Price2).token1_amount_no_fees =
      Double.finite false 5497558138879999 (-39) ∧
    Double.mul (bucketValuesIn Double.arith sampleT0Price2 sampleT1Price2).token0_amount_t0
        (bucketValuesIn Double.arith sampleT0Price2 sampleT1Price2).token1_amount_t0 =
      Double.finite false 5497558138880000 (-39) := by
  rw [bucketValuesIn_sampleT0Price2_sampleT1Price2]
  refine ⟨?_, ?_, ?_, ?_, by rfl, by rfl⟩ <;>
    simp [sampleT1Price2, sampleT1, Double.ofNat_2, Double.toRat] <;>
    norm_num

/-- C12 (amended): for every bucket with `T1.token1PriceUSD > 0` whose fee-free
counterfactual carries no rounding error (both square roots square back exactly and the two
amounts are the exact product and quotient), the product of the fee-free amounts is the
product of the T0 token amounts. -/
theorem C12_no_fee_amounts_keep_product (positionT0 : T0Values Double)
    (positionT1 : T1Values Double) (hprice : 0 < positionT1.token1PriceUSD.toRat)
    (hexact :
      ExactCounterfactual positionT1 (bucketValuesIn Double.arith positionT0 positionT1)) :
    (bucketValuesIn Double.arith positionT0 positionT1).token0_amount_no_fees.toRat *
        (bucketValuesIn Double.arith positionT0 positionT1).token1_amount_no_fees.toRat =
      (bucketValuesIn Double.arith positionT0 positionT1).token0_amount_t0.toRat *
        (bucketValuesIn Double.arith positionT0 positionT1).token1_amount_t0.toRat := by
  have hne : (Double.sqrt positionT1.token1PriceUSD).toRat ≠ 0 := by
    intro h0
    have h := hexact.sqrtPrice
    rw [h0, mul_zero] at h
    rw [← h] at hprice
    exact lt_irrefl _ hprice
  rw [hexact.token0_amount_no_fees, hexact.token1_amount_no_fees, ← hexact.sqrK_t0]
  field_simp
  ring

/-- C12 (witness): T0 amounts 100 and 100 and `token1PriceUSD = 4` at T1: the fee-free
amounts are 200 and 50, and `200 * 50 = 100 * 100`. -/
theorem C12_no_fee_amounts_keep_product_witness :
    (bucketValuesIn Double.arith sampleT0 sampleT1Changed).token0_amount_no_fees.toRat = 200 ∧
    (bucketValuesIn Double.arith sampleT0 sampleT1Changed).token1_amount_no_fees.toRat = 50 ∧
    (bucketValuesIn Double.arith sampleT0 sampleT1Changed).token0_amount_no_fees.toRat *
        (bucketValuesIn Double.arith sampleT0 sampleT1Changed).token1_amount_no_fees.toRat =
      (bucketValuesIn Double.arith sampleT0 sampleT1Changed).token0_amount_t0.toRat *
        (bucketValuesIn Double.arith sampleT0 sampleT1Changed).token1_amount_t0.toRat := by
  refine ⟨?_, ?_,
    C12_no_fee_amounts_keep_product sampleT0 sampleT1Changed ?_
      exactCounterfactual_sampleT1Changed⟩
  all_goals
    first
    | rw [bucketValuesIn_sampleT0_sampleT1Changed]; simp [Double.toRat]; norm_num
    | simp [sampleT1Changed, Double.ofNat_4, Double.toRat]; norm_num

/-- C16 (counterexample): with T1 equal to T0 at `token1PriceUSD = 2`, the code computes
`mooniswap_return = 2 ^ (-45)` while the value of the position at T1 minus `assetValueT1` is
`0`, in exact arithmetic on the computed values and as the code would subtract them: the
fee-free terms do not cancel. -/
theorem C16_terms_do_not_cancel_after_rounding :
    (bucketValuesIn Double.arith sampleT0Price2 sampleT1Price2).mooniswap_return =
      Double.finite false 4503599627370496 (-97) ∧
    Double.sub
        (Double.add
          (Double.mul (bucketValuesIn Double.arith sampleT0Price2 sampleT1Price2).token0_amount_t1
            sampleT1Price2.token0PriceUSD)
          (Double.mul (bucketValuesIn Double.arith sampleT0Price2 sampleT1Price2).token1_amount_t1
            sampleT1Price2.token1PriceUSD))
        (bucketValuesIn Double.arith sampleT0Price2 sampleT1Price2).assetValueT1 =
      Double.zero ∧
    (bucketValuesIn Double.arith sampleT0Price2 sampleT1Price2).mooniswap_return.toRat ≠
      (bucketValuesIn Double.arith sampleT0Price2 sampleT1Price2).token0_amount_t1.toRat *
            sampleT1Price2.token0PriceUSD.toRat +
          (bucketValuesIn Double.arith sampleT0Price2 sampleT1Price2).token1_amount_t1.toRat *
            sampleT1Price2.token1PriceUSD.toRat -
        (bucketValuesIn Double.arith sampleT0Price2 sampleT1Price2).assetValueT1.toRat := by
  refine ⟨?_, ?_, ?_⟩
  · rw [bucketValuesIn_sampleT0Price2_sampleT1Price2]
  · rfl
  · rw [bucketValuesIn_sampleT0Price2_sampleT1Price2]
    simp [sampleT1Price2, sampleT1, Double.ofNat_1, Double.ofNat_2, Double.toRat]
    norm_num

/-- C16 (amended): for every bucket in which the values that lead to `mooniswap_return`
(lines 329-347) carry no rounding error, `mooniswap_return` is the value of the T1 token
amounts at T1 prices minus `assetValueT1`, that is, the change of the token amounts priced at
T1; the fee-free terms cancel. -/
theorem C16_pool_return_without_counterfactual (positionT0 : T0Values Double)
    (positionT1 : T1Values Double)
    (hexact : ExactPoolReturn positionT1 (bucketValuesIn Double.arith positionT0 positionT1)) :
    (bucketValuesIn Double.arith positionT0 positionT1).mooniswap_return.toRat =
        (bucketValuesIn Double.arith positionT0 positionT1).token0_amount_t1.toRat *
              positionT1.token0PriceUSD.toRat +
            (bucketValuesIn Double.arith positionT0 positionT1).token1_amount_t1.toRat *
              positionT1.token1PriceUSD.toRat -
          (bucketValuesIn Double.arith positionT0 positionT1).assetValueT1.toRat ∧
    (bucketValuesIn Double.arith positionT0 positionT1).mooniswap_return.toRat =
      ((bucketValuesIn Double.arith positionT0 positionT1).token0_amount_t1.toRat -
            (bucketValuesIn Double.arith positionT0 positionT1).token0_amount_t0.toRat) *
          positionT1.token0PriceUSD.toRat +
        ((bucketValuesIn Double.arith positionT0 positionT1).token1_amount_t1.toRat -
            (bucketValuesIn Double.arith positionT0 positionT1).token1_amount_t0.toRat) *
          positionT1.token1PriceUSD.toRat := by
  have e1 := hexact.no_fees_usd
  have e2 := hexact.difference_fees_token0
  have e3 := hexact.difference_fees_token1
  have e4 := hexact.difference_fees_usd
  have e5 := hexact.assetValueT1
  have e6 := hexact.imp_loss_usd
  have e7 := hexact.mooniswap_return
  constructor
  · rw [e7, e4, e6, e1, e2, e3]
    ring
  · rw [e7, e4, e6, e1, e5, e2, e3]
    ring

/-- C16 (witness): T0 amounts 100/100, T1 amounts 200/100 at prices 1 and 4:
`mooniswap_return = 100 = (200 * 1 + 100 * 4) - 500`. -/
theorem C16_pool_return_without_counterfactual_witness :
    (bucketValuesIn Double.arith sampleT0 sampleT1Changed).mooniswap_return.toRat = 100 ∧
    (bucketValuesIn Double.arith sampleT0 sampleT1Changed).mooniswap_return.toRat =
      (bucketValuesIn Double.arith sampleT0 sampleT1Changed).token0_amount_t1.toRat *
            sampleT1Changed.token0PriceUSD.toRat +
          (bucketValuesIn Double.arith sampleT0 sampleT1Changed).token1_amount_t1.toRat *
            sampleT1Changed.token1PriceUSD.toRat -
        (bucketValuesIn Double.arith sampleT0 sampleT1Changed).assetValueT1.toRat := by
  refine ⟨?_,
    (C16_pool_return_without_counterfactual sampleT0 sampleT1Changed
      exactPoolReturn_sampleT1Changed).1⟩
  rw [bucketValuesIn_sampleT0_sampleT1Changed]
  simp [Double.toRat]
  norm_num

/-- C17 (counterexample): at a consistent valuation (`reserveUSD = 3000 = 1000 * 1 + 1000 * 2`
at T0 and at T1) with T1 equal to T0, the code computes `netValueT1 - netValueT0 = 0` and
`assetReturn = 0` but `mooniswap_return = 2 ^ (-45)`: the three returns do not add up. -/
theorem C17_returns_do_not_add_up_after_rounding :
    sampleT0Price2.reserveUSD.toRat =
      sampleT0Price2.reserve0.toRat * sampleT0Price2.token0PriceUSD.toRat +
        sampleT0Price2.reserve1.toRat * sampleT0Price2.token1PriceUSD.toRat ∧
    sampleT1Price2.reserveUSD.toRat =
      sampleT1Price2.reserve0.toRat * sampleT1Price2.token0PriceUSD.toRat +
        sampleT1Price2.reserve1.toRat * sampleT1Price2.token1PriceUSD.toRat ∧
    Double.sub (bucketValuesIn Double.arith sampleT0Price2 sampleT1Price2).netValueT1
        (bucketValuesIn Double.arith sampleT0Price2 sampleT1Price2).netValueT0 =
      Double.zero ∧
    Double.add (bucketValuesIn Double.arith sampleT0Price2 sampleT1Price2).assetReturn
        (bucketValuesIn Double.arith sampleT0Price2 sampleT1Price2).mooniswap_return =
      Double.finite false 4503599627370496 (-97) ∧
    (bucketValuesIn Double.arith sampleT0Price2 sampleT1Price2).netValueT1.toRat -
        (bucketValuesIn Double.arith sampleT0Price2 sampleT1Price2).netValueT0.toRat ≠
      (bucketValuesIn Double.arith sampleT0Price2 sampleT1Price2).assetReturn.toRat +
        (bucketValuesIn Double.arith sampleT0Price2 sampleT1Price2).mooniswap_return.toRat := by
  rw [bucketValuesIn_sampleT0Price2_sampleT1Price2]
  refine ⟨?_, ?_, by rfl, by rfl, ?_⟩ <;>
    simp [sampleT0Price2, sampleT1Price2, sampleT0, sampleT1, Double.ofNat_1, Double.ofNat_2,
      Double.ofNat_1000, Double.ofNat_3000, Double.toRat] <;>
    norm_num

/-- C17 (amended): for every bucket in which `reserveUSD = reserve0 * token0PriceUSD +
reserve1 * token1PriceUSD` holds at T0 and at T1 and in which the token amounts, the net
values and the values that lead to `assetReturn` and `mooniswap_return` carry no rounding
error, `netValueT1 - netValueT0 = assetReturn + mooniswap_return`. -/
theorem C17_additive_decomposition (positionT0 : T0Values Double)
    (positionT1 : T1Values Double)
    (hT0 :
      positionT0.reserveUSD.toRat =
        positionT0.reserve0.toRat * positionT0.token0PriceUSD.toRat +
          positionT0.reserve1.toRat * positionT0.token1PriceUSD.toRat)
    (hT1 :
      positionT1.reserveUSD.toRat =
        positionT1.reserve0.toRat * positionT1.token0PriceUSD.toRat +
          positionT1.reserve1.toRat * positionT1.token1PriceUSD.toRat)
    (hshares :
      ExactShares positionT0 positionT1 (bucketValuesIn Double.arith positionT0 positionT1))
    (hasset :
      ExactAssetReturn positionT0 positionT1
        (bucketValuesIn Double.arith positionT0 positionT1))
    (hpool : ExactPoolReturn positionT1 (bucketValuesIn Double.arith positionT0 positionT1)) :
    (bucketValuesIn Double.arith positionT0 positionT1).netValueT1.toRat -
        (bucketValuesIn Double.arith positionT0 positionT1).netValueT0.toRat =
      (bucketValuesIn Double.arith positionT0 positionT1).assetReturn.toRat +
        (bucketValuesIn Double.arith positionT0 positionT1).mooniswap_return.toRat := by
  have e1 := hpool.no_fees_usd
  have e2 := hpool.difference_fees_token0
  have e3 := hpool.difference_fees_token1
  have e4 := hpool.difference_fees_usd
  have e6 := hpool.imp_loss_usd
  have e7 := hpool.mooniswap_return
  have a1 := hasset.assetValueT0
  have a3 := hasset.assetReturn
  have s1 := hshares.token0_amount_t0
  have s2 := hshares.token1_amount_t0
  have s3 := hshares.token0_amount_t1
  have s4 := hshares.token1_amount_t1
  have s5 := hshares.netValueT0
  have s6 := hshares.netValueT1
  rw [s6, s5, a3, e7, e4, e6, e1, a1, e2, e3, s1, s2, s3, s4, hT0, hT1]
  ring

/-- C17 (witness): the two sample snapshots, valued consistently (`2000 = 1000 * 1 + 1000 * 1`
and `6000 = 2000 * 1 + 1000 * 4`): `600 - 200 = 300 + 100`. -/
theorem C17_additive_decomposition_witness :
    (bucketValuesIn Double.arith sampleT0 sampleT1Changed).netValueT1.toRat = 600 ∧
    (bucketValuesIn Double.arith sampleT0 sampleT1Changed).netValueT0.toRat = 200 ∧
    (bucketValuesIn Double.arith sampleT0 sampleT1Changed).assetReturn.toRat = 300 ∧
    (bucketValuesIn Double.arith sampleT0 sampleT1Changed).mooniswap_return.toRat = 100 ∧
    (bucketValuesIn Double.arith sampleT0 sampleT1Changed).netValueT1.toRat -
        (bucketValuesIn Double.arith sampleT0 sampleT1Changed).netValueT0.toRat =
      (bucketValuesIn Double.arith sampleT0 sampleT1Changed).assetReturn.toRat +
        (bucketValuesIn Double.arith sampleT0 sampleT1Changed).mooniswap_return.toRat := by
  refine ⟨?_, ?_, ?_, ?_,
    C17_additive_decomposition sampleT0 sampleT1Changed ?_ ?_ exactShares_sampleT1Changed
      exactAssetReturn_sampleT1Changed exactPoolReturn_sampleT1Changed⟩
  all_goals
    first
    | rw [bucketValuesIn_sampleT0_sampleT1Changed]; simp [Double.toRat]; norm_num
    | simp [sampleT0, sampleT1Changed, Double.ofNat_1, Double.ofNat_4, Double.ofNat_1000,
        Double.ofNat_2000, Double.ofNat_6000, Double.toRat]; norm_num


/-! ## The weights of `getReturns` -/

/-- The windows of the loop start at the snapshots of the history, in order. -/
theorem map_fst_windowsIn {F : Type} (current : WindowEndIn F) :
    ∀ history : List (SnapshotValues F), (windowsIn current history).map Prod.fst = history
  | [] => rfl
  | [_] => rfl
  | positionT0 :: next :: rest => by
    rw [windowsIn, List.map_cons, map_fst_windowsIn current (next :: rest)]

/-- The weight of line 701 is the amount provided at the snapshot over the total. -/
theorem weight_eq_div {F : Type} (A : Arith F) (total : F) (positionT0 : SnapshotValues F)
    (positionT1 : WindowEndIn F) :
    (intervalValuesIn A total positionT0 positionT1).weight =
      A.div (providedUSDIn A positionT0) total :=
  rfl

/-- The total of lines 603-610 adds the amounts provided at the snapshots. -/
theorem totalAmountProvidedUSDIn_eq_foldl {F : Type} (A : Arith F)
    (history : List (SnapshotValues F)) :
    totalAmountProvidedUSDIn A history =
      sumIn A (history.map (providedUSDIn A)) := by
  unfold totalAmountProvidedUSDIn sumIn
  rw [List.foldl_map]
  rfl

theorem providedUSDIn_sampleValues_2000 :
    providedUSDIn Double.arith (sampleValues 2000) =
      Double.finite false 7036874417766400 (-45) := by
  rfl

theorem providedUSDIn_sampleValues_6000 :
    providedUSDIn Double.arith (sampleValues 6000) =
      Double.finite false 5277655813324800 (-43) := by
  rfl

theorem totalAmountProvidedUSDIn_sampleTwo :
    totalAmountProvidedUSDIn Double.arith sampleTwo =
      Double.finite false 7036874417766400 (-43) := by
  rfl

theorem totalAmountProvidedUSDIn_sampleTenEqual :
    totalAmountProvidedUSDIn Double.arith sampleTenEqual =
      Double.finite false 8796093022208000 (-42) := by
  rfl

theorem intervalWeightsIn_sampleTenEqual :
    intervalWeightsIn Double.arith sampleTenEqual sampleCurrent =
      List.replicate 10 (Double.finite false 7205759403792794 (-56)) := by
  rfl

/-- C11 (counterexample): for a history of ten equal snapshots, each providing 200 USD, the
total is exactly the sum of the amounts provided (2000, not zero), but every weight is the
rounded quotient `0.1`: the ten weights the code computes sum to more than 1 as exact
numbers, and to `0.9999999999999999` when added by the code. -/
theorem C11_weights_do_not_sum_to_one_after_rounding :
    (totalAmountProvidedUSDIn Double.arith sampleTenEqual).toRat = 2000 ∧
    (totalAmountProvidedUSDIn Double.arith sampleTenEqual).toRat =
      (sampleTenEqual.map (fun positionT0 => (providedUSDIn Double.arith positionT0).toRat)).sum ∧
    intervalWeightsIn Double.arith sampleTenEqual sampleCurrent =
      List.replicate 10 (Double.finite false 7205759403792794 (-56)) ∧
    ((intervalWeightsIn Double.arith sampleTenEqual sampleCurrent).map Double.toRat).sum ≠ 1 ∧
    sumIn Double.arith (intervalWeightsIn Double.arith sampleTenEqual sampleCurrent) =
      Double.finite false 9007199254740991 (-53) := by
  rw [intervalWeightsIn_sampleTenEqual, totalAmountProvidedUSDIn_sampleTenEqual]
  refine ⟨?_, ?_, rfl, ?_, by rfl⟩
  · simp [Double.toRat]
    norm_num
  · simp [sampleTenEqual, providedUSDIn_sampleValues_2000, Double.toRat]
    norm_num
  · simp [Double.toRat]
    norm_num

/-- C11 (amended): for every history whose `totalAmountProvidedUSD` is a non-zero number (a
finite one: `toRat` is `0` on `NaN` and `±Infinity`) and exactly the sum of the amounts
provided at its snapshots, and whose weights are each finite and the exact quotient of the
amount provided by the total, the weights of line 701, taken over all intervals of the loop,
sum to 1. -/
theorem C11_weights_sum_to_one (history : List (SnapshotValues Double))
    (current : WindowEndIn Double)
    (hne : (totalAmountProvidedUSDIn Double.arith history).toRat ≠ 0)
    (htotal :
      (totalAmountProvidedUSDIn Double.arith history).toRat =
        (history.map (fun positionT0 => (providedUSDIn Double.arith positionT0).toRat)).sum)
    (hweight :
      ∀ w ∈ windowsIn current history,
        (intervalValuesIn Double.arith (totalAmountProvidedUSDIn Double.arith history) w.1
            w.2).weight.isFinite = true ∧
        (intervalValuesIn Double.arith (totalAmountProvidedUSDIn Double.arith history) w.1
            w.2).weight.toRat =
          (providedUSDIn Double.arith w.1).toRat /
            (totalAmountProvidedUSDIn Double.arith history).toRat) :
    ((intervalWeightsIn Double.arith history current).map Double.toRat).sum = 1 := by
  have hmap :
      (intervalWeightsIn Double.arith history current).map Double.toRat =
        (windowsIn current history).map
          (fun w =>
            (providedUSDIn Double.arith w.1).toRat *
              ((totalAmountProvidedUSDIn Double.arith history).toRat)⁻¹) := by
    unfold intervalWeightsIn
    rw [List.map_map]
    apply List.map_congr_left
    intro w hw
    rw [Function.comp_apply, (hweight w hw).2, div_eq_mul_inv]
  have hfst :
      (windowsIn current history).map
          (fun w => (providedUSDIn Double.arith w.1).toRat) =
        history.map (fun positionT0 => (providedUSDIn Double.arith positionT0).toRat) := by
    conv_rhs => rw [← map_fst_windowsIn current history, List.map_map]
    rfl
  rw [hmap, List.sum_map_mul_right, hfst, ← htotal]
  exact mul_inv_cancel₀ hne

/-- C11 (witness): the two sample snapshots provide 200 and 600 USD; the total is 800 and the
weights are `0.25` and `0.75`, which sum to 1. -/
theorem C11_weights_sum_to_one_witness :
    intervalWeightsIn Double.arith sampleTwo sampleCurrent =
      [Double.finite false 4503599627370496 (-54),
        Double.finite false 6755399441055744 (-53)] ∧
    ((intervalWeightsIn Double.arith sampleTwo sampleCurrent).map Double.toRat).sum = 1 := by
  refine ⟨by rfl, C11_weights_sum_to_one sampleTwo sampleCurrent ?_ ?_ ?_⟩
  · rw [totalAmountProvidedUSDIn_sampleTwo]
    simp [Double.toRat]
    norm_num
  · rw [totalAmountProvidedUSDIn_sampleTwo]
    simp [sampleTwo, providedUSDIn_sampleValues_2000, providedUSDIn_sampleValues_6000,
      Double.toRat]
    norm_num
  · intro w hw
    have hcases :
        w = (sampleValues 2000, (sampleValues 6000).windowEnd) ∨
          w = (sampleValues 6000, sampleCurrent) := by
      simpa [sampleTwo, windowsIn] using hw
    rcases hcases with rfl | rfl
    · rw [weight_eq_div, totalAmountProvidedUSDIn_sampleTwo, providedUSDIn_sampleValues_2000]
      have hq :
          Double.arith.div (Double.finite false 7036874417766400 (-45))
              (Double.finite false 7036874417766400 (-43)) =
            Double.finite false 4503599627370496 (-54) := by
        rfl
      rw [hq]
      constructor
      · rfl
      · simp [Double.toRat]
        norm_num
    · rw [weight_eq_div, totalAmountProvidedUSDIn_sampleTwo, providedUSDIn_sampleValues_6000]
      have hq :
          Double.arith.div (Double.finite false 5277655813324800 (-43))
              (Double.finite false 7036874417766400 (-43)) =
            Double.finite false 6755399441055744 (-53) := by
        rfl
      rw [hq]
      constructor
      · rfl
      · simp [Double.toRat]
        norm_num

end Mooniswap
